import Mathlib

/-!
# Soylent recipe calculator: macro-nutrient requirements and recipe generation

A shallow embedding of `lib/inputs/inputs.go` (package `inputs`),
`lib/outputs/outputs.go` (package `outputs`) and `find_macros.go` (package `find_macros`).

Numbers.  The Go code computes in `float64`.  Two embeddings are given.  In the first
(namespaces `inputs`, `outputs`, `find_macros`) arithmetic is exact: a finite
`float64` value is a rational number and no operation rounds.  `inputs.go` only
ever divides by the non-zero constants `3` and `cCalRatio = 4`, so on finite
inputs all of its values are finite and its functions are stated over `ℚ`.
`outputs.go` divides by fields of `Ingredient` records, which can be zero; a `float64`
division by zero does not fail, it yields an infinity or a NaN.  The quantities of a
`Recipe` therefore range over `outputs.float64`: the rationals together with `+Inf`,
`-Inf` and `NaN`, with the IEEE 754 rules for these three values.
In the second (namespaces `inputs64`, `outputs64`) every constant and every operation is
rounded to binary64 as the hardware does, with overflow to the infinities; see `binary64`.
Statements said to hold in exact arithmetic are about the first; the second is used where
rounding, overflow or the comparison with NaN decides a property.
-/

namespace inputs

/-- The constant `kilo2Pound`: kilogram to pound conversion factor. -/
def kilo2Pound : ℚ := 2.20462262

/-- The constant `pMassRatio`: grams of protein required per lb of lean body mass. -/
def pMassRatio : ℚ := 1.5

/-- The constant `fMassRatio`: grams of fat required per lb of body mass. -/
def fMassRatio : ℚ := 0.45

/-- The constant `pCalRatio`: calories in each gram of protein. -/
def pCalRatio : ℚ := 4

/-- The constant `fCalRatio`: calories in each gram of fat. -/
def fCalRatio : ℚ := 9

/-- The constant `cCalRatio`: calories in each gram of carbohydrate. -/
def cCalRatio : ℚ := 4

/-- The constant `bulkModifier`: calorie modifier for the bulk regime. -/
def bulkModifier : ℚ := 1.1

/-- The constant `cutModifier`: calorie modifier for the cut regime. -/
def cutModifier : ℚ := 0.9

/-- The struct `Profile`. -/
structure Profile where
  Weight : ℚ
  Height : ℚ
  BodyFat : ℚ
  ActivityLevel : ℚ
  Age : ℚ
  Gender : String
  Regime : String
  deriving DecidableEq, Repr

/-- The struct `Macros`; `Macros{}` is the all-zero value. -/
structure Macros where
  Carbs : ℚ := 0
  Protein : ℚ := 0
  Fat : ℚ := 0
  Calories : ℚ := 0
  deriving DecidableEq, Repr

/-- The function `leanBodyMass`. -/
def leanBodyMass (weight bodyFat : ℚ) : ℚ :=
  weight * (1 - bodyFat)

/-- The first `switch` of `findCalories`: the pair `(harrisBenedict, mifflinStJeor)`.
Both variables are declared with `var`, hence start at zero, and the switch has no
`default` case: for any other gender they stay zero. -/
def genderEstimates (u : Profile) : ℚ × ℚ :=
  if u.Gender = "male" then
    (66 + (13.7 * u.Weight) + (5 * u.Height) - (6.76 * u.Age),
     (9.99 * u.Weight) + (6.25 * u.Height) - (4.92 * u.Age) + 5)
  else if u.Gender = "female" then
    (655 + (9.6 * u.Weight) + (1.8 * u.Height) - (4.7 * u.Age),
     (9.99 * u.Weight) + (6.25 * u.Height) - (4.92 * u.Age) - 161)
  else
    (0, 0)

/-- The method `findCalories`.  The second `switch` returns in each of its three cases
and has no `default`; the function body ends right after it, so for any other regime
no `return` statement is reached and no value is produced: `none`. -/
def findCalories (u : Profile) : Option ℚ :=
  let harrisBenedict := (genderEstimates u).1
  let mifflinStJeor := (genderEstimates u).2
  let katchMcArdle := 370 + (leanBodyMass u.Weight u.BodyFat * 21.6)
  let calories := u.ActivityLevel * (harrisBenedict + mifflinStJeor + katchMcArdle) / 3
  if u.Regime = "bulk" then
    some (calories * bulkModifier)
  else if u.Regime = "maintain" then
    some calories
  else if u.Regime = "cut" then
    some (calories * cutModifier)
  else
    none

/-- The method `FindMacros`.  The call `u.findCalories()` has to produce a value for
the function to go on; when it produces none, neither does `FindMacros`. -/
def FindMacros (u : Profile) : Option Macros :=
  let UserMacros : Macros := {}
  let UserMacros := { UserMacros with
    Protein := pMassRatio * leanBodyMass u.Weight u.BodyFat * kilo2Pound }
  let UserMacros := { UserMacros with Fat := fMassRatio * u.Weight * kilo2Pound }
  match findCalories u with
  | none => none
  | some c =>
    let UserMacros := { UserMacros with Calories := c }
    let UserMacros := { UserMacros with
      Carbs := (UserMacros.Calories - pCalRatio * UserMacros.Protein
                  - fCalRatio * UserMacros.Fat) / cCalRatio }
    some UserMacros

/-- The numeric domain the description gives for a `Profile`: weight, height and age
positive, body fat in `[0, 1)`, activity level in `[1, 2]`, gender "male" or "female".
Nothing in `inputs.go` checks it. -/
def inDomain (u : Profile) : Prop :=
  0 < u.Weight ∧ 0 < u.Height ∧ 0 ≤ u.BodyFat ∧ u.BodyFat < 1 ∧
  1 ≤ u.ActivityLevel ∧ u.ActivityLevel ≤ 2 ∧ 0 < u.Age ∧
  (u.Gender = "male" ∨ u.Gender = "female")

end inputs

namespace outputs

/-- A `float64` value in exact arithmetic: a finite value is a rational number (no
rounding, no overflow), and the three special values follow IEEE 754.  The two signed
zeros are identified as `fin 0`; the only zero divisors in this package are
zero-valued struct fields, which are the positive zero, so a division by `fin 0` is a
division by `+0`. -/
inductive float64 where
  | fin (q : ℚ)
  | posInf
  | negInf
  | nan
  deriving DecidableEq, Repr

namespace float64

/-- The infinity with the sign of a non-zero rational `q`. -/
def infOfSign (q : ℚ) : float64 :=
  if 0 < q then posInf else negInf

/-- Addition `x + y`: infinities of opposite sign give NaN. -/
def add : float64 → float64 → float64
  | fin a, fin b => fin (a + b)
  | fin _, posInf => posInf
  | fin _, negInf => negInf
  | posInf, fin _ => posInf
  | negInf, fin _ => negInf
  | posInf, posInf => posInf
  | negInf, negInf => negInf
  | posInf, negInf => nan
  | negInf, posInf => nan
  | nan, _ => nan
  | _, nan => nan

/-- Subtraction `x - y`: infinities of equal sign give NaN. -/
def sub : float64 → float64 → float64
  | fin a, fin b => fin (a - b)
  | fin _, posInf => negInf
  | fin _, negInf => posInf
  | posInf, fin _ => posInf
  | negInf, fin _ => negInf
  | posInf, negInf => posInf
  | negInf, posInf => negInf
  | posInf, posInf => nan
  | negInf, negInf => nan
  | nan, _ => nan
  | _, nan => nan

/-- Multiplication `x * y`: zero times an infinity gives NaN. -/
def mul : float64 → float64 → float64
  | fin a, fin b => fin (a * b)
  | fin a, posInf => if a = 0 then nan else infOfSign a
  | fin a, negInf => if a = 0 then nan else infOfSign (-a)
  | posInf, fin b => if b = 0 then nan else infOfSign b
  | negInf, fin b => if b = 0 then nan else infOfSign (-b)
  | posInf, posInf => posInf
  | negInf, negInf => posInf
  | posInf, negInf => negInf
  | negInf, posInf => negInf
  | nan, _ => nan
  | _, nan => nan

/-- Division `x / y`: a non-zero finite value over zero gives the infinity of its sign,
zero over zero and infinity over infinity give NaN, a finite value over an infinity
gives zero. -/
def div : float64 → float64 → float64
  | fin a, fin b =>
    if b = 0 then (if a = 0 then nan else infOfSign a) else fin (a / b)
  | fin _, posInf => fin 0
  | fin _, negInf => fin 0
  | posInf, fin b => if 0 ≤ b then posInf else negInf
  | negInf, fin b => if 0 ≤ b then negInf else posInf
  | posInf, posInf => nan
  | negInf, negInf => nan
  | posInf, negInf => nan
  | negInf, posInf => nan
  | nan, _ => nan
  | _, nan => nan

instance : Add float64 := ⟨add⟩
instance : Sub float64 := ⟨sub⟩
instance : Mul float64 := ⟨mul⟩
instance : Div float64 := ⟨div⟩

/-- A value is finite when it is neither an infinity nor NaN. -/
def isFinite : float64 → Bool
  | fin _ => true
  | _ => false

end float64

open float64

/-- The constant `oatBase`. -/
def oatBase : float64 := fin 200

/-- The constant `oatMod`. -/
def oatMod : float64 := fin 150

/-- The constant `calUpper`. -/
def calUpper : float64 := fin 3400

/-- The constant `calLower`. -/
def calLower : float64 := fin 1600

/-- The constant `fibreRatio`. -/
def fibreRatio : float64 := fin 14

/-- The constant `salt`. -/
def salt : float64 := fin 4.0

/-- The constant `multivitamin`. -/
def multivitamin : float64 := fin 1.8

/-- The constant `choline`. -/
def choline : float64 := fin 1.0

/-- The constant `potassiumReq`. -/
def potassiumReq : float64 := fin 2500

/-- The type `Macros`, declared as `type Macros inputs.Macros`. -/
abbrev Macros := inputs.Macros

/-- The struct `Ingredient`: per-unit contents.  The zero value has every field zero. -/
structure Ingredient where
  Protein : ℚ := 0
  Carbs : ℚ := 0
  Fat : ℚ := 0
  Fibre : ℚ := 0
  Potassium : ℚ := 0
  deriving DecidableEq, Repr

/-- The struct `Recipe`; `Recipe{}` is the all-zero value. -/
structure Recipe where
  Oats : float64 := fin 0
  Whey : float64 := fin 0
  Maltodextrin : float64 := fin 0
  Oil : float64 := fin 0
  Psyllium : float64 := fin 0
  Salt : float64 := fin 0
  Multivitamin : float64 := fin 0
  Choline : float64 := fin 0
  Potassium : float64 := fin 0
  deriving DecidableEq, Repr

/-- The nine local variables of `GenerateRecipe`, declared by
`var ( Oats, Whey, Maltodextrin, Oil, Psyllium, Salt, Multivitamin, Choline, Potassium Ingredient )`.
The default of each is the zero value of `Ingredient`. -/
structure Ingredients where
  Oats : Ingredient := {}
  Whey : Ingredient := {}
  Maltodextrin : Ingredient := {}
  Oil : Ingredient := {}
  Psyllium : Ingredient := {}
  Salt : Ingredient := {}
  Multivitamin : Ingredient := {}
  Choline : Ingredient := {}
  Potassium : Ingredient := {}
  deriving DecidableEq, Repr

/-- The statements of `GenerateRecipe` after its `var` block, as a function of the values
`t` held by the local `Ingredient` variables. -/
def GenerateRecipeWith (t : Ingredients) (m : Macros) : Recipe :=
  let Recipe : Recipe := {}
  let Recipe := { Recipe with Salt := salt }
  let Recipe := { Recipe with Multivitamin := multivitamin }
  let Recipe := { Recipe with Choline := choline }
  let Recipe := { Recipe with
    Oats := oatBase + oatMod * (fin m.Calories - calLower) / (calUpper - calLower) }
  let Recipe := { Recipe with
    Whey := (fin m.Protein - Recipe.Oats * fin t.Oats.Protein) / fin t.Whey.Protein }
  let Recipe := { Recipe with
    Psyllium := ((fin m.Calories / fin 1000) * fibreRatio - Recipe.Whey * fin t.Whey.Fibre
                  - Recipe.Oats * fin t.Oats.Fibre) / fin t.Psyllium.Fibre }
  let Recipe := { Recipe with
    Oil := (fin m.Fat - Recipe.Oats * fin t.Oats.Fat - Recipe.Whey * fin t.Whey.Fat) }
  let Recipe := { Recipe with
    Maltodextrin := (fin m.Carbs - Recipe.Oats * fin t.Oats.Carbs - Recipe.Whey * fin t.Whey.Carbs
                      - Recipe.Psyllium - fin t.Psyllium.Carbs) }
  let Recipe := { Recipe with
    Potassium := (potassiumReq - Recipe.Oats * fin t.Oats.Potassium
                    - Recipe.Multivitamin * fin t.Multivitamin.Potassium) }
  Recipe

/-- The values of the local `Ingredient` variables of `GenerateRecipe`: the `var` block
declares them without initialiser and nothing assigns to them, so each holds the zero
value of `Ingredient`. -/
def locals : Ingredients := {}

/-- The method `GenerateRecipe`: its statements, run on its zero-valued locals. -/
def GenerateRecipe (m : Macros) : Recipe :=
  GenerateRecipeWith locals m

end outputs

/-! The earlier calculator `find_macros.go` (package `find_macros`).  It keeps its result in
the package-level variable `user_macros`; the variable is passed in and out explicitly. -/

namespace find_macros

/-- The constant `kilo2pound`. -/
def kilo2pound : ℚ := 2.20462262

/-- The struct `Profile` of `find_macros.go`. -/
structure Profile where
  weight : ℚ
  height : ℚ
  body_fat : ℚ
  activity_level : ℚ
  age : ℚ
  gender : String
  regime : String
  deriving DecidableEq, Repr

/-- The struct `Macros` of `find_macros.go`; `Macros{}` is the all-zero value. -/
structure Macros where
  carbs : ℚ := 0
  protein : ℚ := 0
  fat : ℚ := 0
  calories : ℚ := 0
  deriving DecidableEq, Repr

/-- The initial value of the package-level variable `user_macros`. -/
def user_macros : Macros := {}

/-- The method `avg_calories`.  The two estimates are declared with `var`, hence start at
zero, and stay zero for a gender that matches no case.  The activity level is not used. -/
def avg_calories (u : Profile) : ℚ :=
  let estimates : ℚ × ℚ :=
    if u.gender = "male" then
      (66 + (13.7 * u.weight) + (5 * u.height) - (6.76 * u.age),
       (9.99 * u.weight) + (6.25 * u.height) - (4.92 * u.age) + 5)
    else if u.gender = "female" then
      (655 + (9.6 * u.weight) + (1.8 * u.height) - (4.7 * u.age),
       (9.99 * u.weight) + (6.25 * u.height) - (4.92 * u.age) - 161)
    else
      (0, 0)
  let harris_benedict := estimates.1
  let mifflin_stjeor := estimates.2
  let lean_body_mass := u.weight * (1 - u.body_fat)
  let katch_mcardle := 370 + (lean_body_mass * 21.6)
  (harris_benedict + mifflin_stjeor + katch_mcardle) / 3

set_option linter.dupNamespace false in
/-- The method `find_macros`, run with the package-level variable holding `user_macros`.
It assigns to the fields of the variable and returns it: the first component is the value
returned, the second the value left in the variable.  The `switch` has no `default`: for a
regime that matches no case the field `calories` keeps the value it had. -/
def find_macros (u : Profile) (user_macros : Macros) : Macros × Macros :=
  let weight_pounds := u.weight * kilo2pound
  let lean_body_mass := weight_pounds * (1 - u.body_fat)
  let user_macros := { user_macros with protein := 1.5 * lean_body_mass }
  let calories_protein := 4 * user_macros.protein
  let user_macros := { user_macros with fat := weight_pounds * 0.45 }
  let calories_fat := 9 * user_macros.fat
  let user_macros :=
    if u.regime = "bulk" then
      { user_macros with calories := avg_calories u * 1.1 }
    else if u.regime = "maintain" then
      { user_macros with calories := avg_calories u }
    else if u.regime = "cut" then
      { user_macros with calories := avg_calories u * 0.9 }
    else
      user_macros
  let user_macros := { user_macros with
    carbs := (user_macros.calories - calories_fat - calories_protein) / 4 }
  (user_macros, user_macros)

/-- The profile of `find_macros.go` with the same field values as a profile of the
library package `inputs`. -/
def ofInputs (u : inputs.Profile) : Profile :=
  { weight := u.Weight, height := u.Height, body_fat := u.BodyFat,
    activity_level := u.ActivityLevel, age := u.Age, gender := u.Gender, regime := u.Regime }

end find_macros

/-! ## The same code in IEEE 754 binary64

The embedding above computes exactly.  The one below computes as Go does on `float64`:
every constant is converted to the nearest binary64 value and every operation returns
the correctly rounded result, overflowing to an infinity.  It is used where rounding or
overflow decides a property. -/

/-- A `float64` value: a finite binary64 number, given by the rational it denotes, or one
of the three special values.  The two signed zeros are identified as `fin 0`; the only
zero divisors in this code are zero-valued struct fields, which are the positive zero. -/
inductive binary64 where
  | fin (q : ℚ)
  | posInf
  | negInf
  | nan
  deriving DecidableEq, Repr

namespace binary64

/-- The power of two `2 ^ e` as a rational, for an integer exponent. -/
def pow2 (e : ℤ) : ℚ :=
  if 0 ≤ e then ((2 ^ e.toNat : ℕ) : ℚ) else 1 / ((2 ^ (-e).toNat : ℕ) : ℚ)

/-- The exponent of the unit in the last place of a non-negative rational `a < 2 ^ 1024`:
the least `e ≥ -1074` with `a < 2 ^ (e + 53)`, found by bisection (`-1074` is the
exponent of the subnormal numbers). -/
def ulpExp (a : ℚ) : ℤ :=
  List.foldl (fun e s => if pow2 (e + s + 53) ≤ a then e + s else e) (-1075)
    [1024, 512, 256, 128, 64, 32, 16, 8, 4, 2, 1] + 1

/-- The nearest integer to a non-negative rational, ties going to the even one. -/
def roundHalfEven (x : ℚ) : ℤ :=
  if x - ⌊x⌋ < 1 / 2 then ⌊x⌋
  else if 1 / 2 < x - ⌊x⌋ then ⌊x⌋ + 1
  else if ⌊x⌋ % 2 = 0 then ⌊x⌋ else ⌊x⌋ + 1

/-- The infinity with the sign of a non-zero rational `q`. -/
def infOfSign (q : ℚ) : binary64 :=
  if 0 < q then posInf else negInf

/-- Rounding of an exact result to binary64, to nearest with ties to even: the magnitude
is rounded to a multiple of its unit in the last place, and a result of magnitude
`2 ^ 1024` or more is an infinity. -/
def round64 (q : ℚ) : binary64 :=
  if pow2 1024 ≤ |q| then infOfSign q
  else
    let e := ulpExp |q|
    let r := (roundHalfEven (|q| / pow2 e) : ℚ) * pow2 e
    if pow2 1024 ≤ r then infOfSign q
    else fin (if 0 < q then r else -r)

/-- Addition `x + y`. -/
def add : binary64 → binary64 → binary64
  | fin a, fin b => round64 (a + b)
  | fin _, posInf => posInf
  | fin _, negInf => negInf
  | posInf, fin _ => posInf
  | negInf, fin _ => negInf
  | posInf, posInf => posInf
  | negInf, negInf => negInf
  | posInf, negInf => nan
  | negInf, posInf => nan
  | nan, _ => nan
  | _, nan => nan

/-- Subtraction `x - y`. -/
def sub : binary64 → binary64 → binary64
  | fin a, fin b => round64 (a - b)
  | fin _, posInf => negInf
  | fin _, negInf => posInf
  | posInf, fin _ => posInf
  | negInf, fin _ => negInf
  | posInf, negInf => posInf
  | negInf, posInf => negInf
  | posInf, posInf => nan
  | negInf, negInf => nan
  | nan, _ => nan
  | _, nan => nan

/-- Multiplication `x * y`. -/
def mul : binary64 → binary64 → binary64
  | fin a, fin b => round64 (a * b)
  | fin a, posInf => if a = 0 then nan else infOfSign a
  | fin a, negInf => if a = 0 then nan else infOfSign (-a)
  | posInf, fin b => if b = 0 then nan else infOfSign b
  | negInf, fin b => if b = 0 then nan else infOfSign (-b)
  | posInf, posInf => posInf
  | negInf, negInf => posInf
  | posInf, negInf => negInf
  | negInf, posInf => negInf
  | nan, _ => nan
  | _, nan => nan

/-- Division `x / y`. -/
def div : binary64 → binary64 → binary64
  | fin a, fin b =>
    if b = 0 then (if a = 0 then nan else infOfSign a) else round64 (a / b)
  | fin _, posInf => fin 0
  | fin _, negInf => fin 0
  | posInf, fin b => if 0 ≤ b then posInf else negInf
  | negInf, fin b => if 0 ≤ b then negInf else posInf
  | posInf, posInf => nan
  | negInf, negInf => nan
  | posInf, negInf => nan
  | negInf, posInf => nan
  | nan, _ => nan
  | _, nan => nan

/-- Negation `-x`. -/
def neg : binary64 → binary64
  | fin a => fin (-a)
  | posInf => negInf
  | negInf => posInf
  | nan => nan

instance : Add binary64 := ⟨add⟩
instance : Sub binary64 := ⟨sub⟩
instance : Mul binary64 := ⟨mul⟩
instance : Div binary64 := ⟨div⟩
instance : Neg binary64 := ⟨neg⟩

/-- An integer constant, converted to `float64`. -/
instance (n : ℕ) : OfNat binary64 n := ⟨round64 n⟩

/-- A decimal constant, converted to `float64`. -/
instance : OfScientific binary64 := ⟨fun m s e => round64 (OfScientific.ofScientific m s e)⟩

/-- The comparison `x == y`: false as soon as one side is NaN. -/
def eq : binary64 → binary64 → Bool
  | fin a, fin b => decide (a = b)
  | posInf, posInf => true
  | negInf, negInf => true
  | _, _ => false

/-- The comparison `x < y`: false as soon as one side is NaN. -/
def lt : binary64 → binary64 → Bool
  | fin a, fin b => decide (a < b)
  | fin _, posInf => true
  | negInf, fin _ => true
  | negInf, posInf => true
  | _, _ => false

/-- A value is finite when it is neither an infinity nor NaN. -/
def isFinite : binary64 → Bool
  | fin _ => true
  | _ => false

end binary64

namespace inputs64

open binary64

/-- The constant `kilo2Pound`. -/
def kilo2Pound : binary64 := 2.20462262

/-- The constant `pMassRatio`. -/
def pMassRatio : binary64 := 1.5

/-- The constant `fMassRatio`. -/
def fMassRatio : binary64 := 0.45

/-- The constant `pCalRatio`. -/
def pCalRatio : binary64 := 4

/-- The constant `fCalRatio`. -/
def fCalRatio : binary64 := 9

/-- The constant `cCalRatio`. -/
def cCalRatio : binary64 := 4

/-- The constant `bulkModifier`. -/
def bulkModifier : binary64 := 1.1

/-- The constant `cutModifier`. -/
def cutModifier : binary64 := 0.9

/-- The struct `Profile`. -/
structure Profile where
  Weight : binary64
  Height : binary64
  BodyFat : binary64
  ActivityLevel : binary64
  Age : binary64
  Gender : String
  Regime : String
  deriving DecidableEq, Repr

/-- The struct `Macros`; `Macros{}` is the all-zero value. -/
structure Macros where
  Carbs : binary64 := 0
  Protein : binary64 := 0
  Fat : binary64 := 0
  Calories : binary64 := 0
  deriving DecidableEq, Repr

/-- The function `leanBodyMass`. -/
def leanBodyMass (weight bodyFat : binary64) : binary64 :=
  weight * (1 - bodyFat)

/-- The first `switch` of `findCalories`: the pair `(harrisBenedict, mifflinStJeor)`,
zero for a gender that matches no case. -/
def genderEstimates (u : Profile) : binary64 × binary64 :=
  if u.Gender = "male" then
    (66 + (13.7 * u.Weight) + (5 * u.Height) - (6.76 * u.Age),
     (9.99 * u.Weight) + (6.25 * u.Height) - (4.92 * u.Age) + 5)
  else if u.Gender = "female" then
    (655 + (9.6 * u.Weight) + (1.8 * u.Height) - (4.7 * u.Age),
     (9.99 * u.Weight) + (6.25 * u.Height) - (4.92 * u.Age) - 161)
  else
    (0, 0)

/-- The method `findCalories`; `none` for a regime that matches no case, where no
`return` statement is reached. -/
def findCalories (u : Profile) : Option binary64 :=
  let harrisBenedict := (genderEstimates u).1
  let mifflinStJeor := (genderEstimates u).2
  let katchMcArdle := 370 + (leanBodyMass u.Weight u.BodyFat * 21.6)
  let calories := u.ActivityLevel * (harrisBenedict + mifflinStJeor + katchMcArdle) / 3
  if u.Regime = "bulk" then
    some (calories * bulkModifier)
  else if u.Regime = "maintain" then
    some calories
  else if u.Regime = "cut" then
    some (calories * cutModifier)
  else
    none

/-- The method `FindMacros`. -/
def FindMacros (u : Profile) : Option Macros :=
  let UserMacros : Macros := {}
  let UserMacros := { UserMacros with
    Protein := pMassRatio * leanBodyMass u.Weight u.BodyFat * kilo2Pound }
  let UserMacros := { UserMacros with Fat := fMassRatio * u.Weight * kilo2Pound }
  match findCalories u with
  | none => none
  | some c =>
    let UserMacros := { UserMacros with Calories := c }
    let UserMacros := { UserMacros with
      Carbs := (UserMacros.Calories - pCalRatio * UserMacros.Protein
                  - fCalRatio * UserMacros.Fat) / cCalRatio }
    some UserMacros

end inputs64

namespace outputs64

open binary64

/-- The constant `oatBase`. -/
def oatBase : binary64 := 200

/-- The constant `oatMod`. -/
def oatMod : binary64 := 150

/-- The constant `calUpper`. -/
def calUpper : binary64 := 3400

/-- The constant `calLower`. -/
def calLower : binary64 := 1600

/-- The constant `fibreRatio`. -/
def fibreRatio : binary64 := 14

/-- The constant `salt`. -/
def salt : binary64 := 4.0

/-- The constant `multivitamin`. -/
def multivitamin : binary64 := 1.8

/-- The constant `choline`. -/
def choline : binary64 := 1.0

/-- The constant `potassiumReq`. -/
def potassiumReq : binary64 := 2500

/-- The type `Macros`, declared as `type Macros inputs.Macros`. -/
abbrev Macros := inputs64.Macros

/-- The struct `Ingredient`: per-unit contents.  The zero value has every field zero. -/
structure Ingredient where
  Protein : binary64 := fin 0
  Carbs : binary64 := fin 0
  Fat : binary64 := fin 0
  Fibre : binary64 := fin 0
  Potassium : binary64 := fin 0
  deriving DecidableEq, Repr

/-- The struct `Recipe`; `Recipe{}` is the all-zero value. -/
structure Recipe where
  Oats : binary64 := fin 0
  Whey : binary64 := fin 0
  Maltodextrin : binary64 := fin 0
  Oil : binary64 := fin 0
  Psyllium : binary64 := fin 0
  Salt : binary64 := fin 0
  Multivitamin : binary64 := fin 0
  Choline : binary64 := fin 0
  Potassium : binary64 := fin 0
  deriving DecidableEq, Repr

/-- The nine local variables of `GenerateRecipe`, declared by
`var ( Oats, Whey, Maltodextrin, Oil, Psyllium, Salt, Multivitamin, Choline, Potassium Ingredient )`. -/
structure Ingredients where
  Oats : Ingredient := {}
  Whey : Ingredient := {}
  Maltodextrin : Ingredient := {}
  Oil : Ingredient := {}
  Psyllium : Ingredient := {}
  Salt : Ingredient := {}
  Multivitamin : Ingredient := {}
  Choline : Ingredient := {}
  Potassium : Ingredient := {}
  deriving DecidableEq, Repr

/-- The values of the local `Ingredient` variables of `GenerateRecipe`: declared without
initialiser and never assigned, each holds the zero value of `Ingredient`. -/
def locals : Ingredients := {}

/-- The method `GenerateRecipe`, reading the contents from its zero-valued locals. -/
def GenerateRecipe (m : Macros) : Recipe :=
  let Recipe : Recipe := {}
  let Recipe := { Recipe with Salt := salt }
  let Recipe := { Recipe with Multivitamin := multivitamin }
  let Recipe := { Recipe with Choline := choline }
  let Recipe := { Recipe with
    Oats := oatBase + oatMod * (m.Calories - calLower) / (calUpper - calLower) }
  let Recipe := { Recipe with
    Whey := (m.Protein - Recipe.Oats * locals.Oats.Protein) / locals.Whey.Protein }
  let Recipe := { Recipe with
    Psyllium := ((m.Calories / 1000) * fibreRatio - Recipe.Whey * locals.Whey.Fibre
                  - Recipe.Oats * locals.Oats.Fibre) / locals.Psyllium.Fibre }
  let Recipe := { Recipe with
    Oil := (m.Fat - Recipe.Oats * locals.Oats.Fat - Recipe.Whey * locals.Whey.Fat) }
  let Recipe := { Recipe with
    Maltodextrin := (m.Carbs - Recipe.Oats * locals.Oats.Carbs
                      - Recipe.Whey * locals.Whey.Carbs
                      - Recipe.Psyllium - locals.Psyllium.Carbs) }
  let Recipe := { Recipe with
    Potassium := (potassiumReq - Recipe.Oats * locals.Oats.Potassium
                    - Recipe.Multivitamin * locals.Multivitamin.Potassium) }
  Recipe

end outputs64


/-! ## Macro-nutrient requirements (`inputs.go`) -/

namespace inputs

/-- The value of `calories` in `findCalories` before the regime modifier is applied. -/
theorem findCalories_maintain (u : Profile) :
    findCalories { u with Regime := "maintain" } =
      some (u.ActivityLevel * ((genderEstimates u).1 + (genderEstimates u).2
        + (370 + (leanBodyMass u.Weight u.BodyFat * 21.6))) / 3) := by
  simp [findCalories, genderEstimates]

/-- The bulk value of `findCalories` is the unmodified value times `bulkModifier`. -/
theorem findCalories_bulk (u : Profile) :
    findCalories { u with Regime := "bulk" } =
      some (u.ActivityLevel * ((genderEstimates u).1 + (genderEstimates u).2
        + (370 + (leanBodyMass u.Weight u.BodyFat * 21.6))) / 3 * bulkModifier) := by
  simp [findCalories, genderEstimates]

/-- The cut value of `findCalories` is the unmodified value times `cutModifier`. -/
theorem findCalories_cut (u : Profile) :
    findCalories { u with Regime := "cut" } =
      some (u.ActivityLevel * ((genderEstimates u).1 + (genderEstimates u).2
        + (370 + (leanBodyMass u.Weight u.BodyFat * 21.6))) / 3 * cutModifier) := by
  simp [findCalories, genderEstimates]

/-- For a recognised regime `findCalories` reaches a `return` statement. -/
theorem findCalories_isSome (u : Profile)
    (hr : u.Regime = "bulk" ∨ u.Regime = "maintain" ∨ u.Regime = "cut") :
    ∃ c, findCalories u = some c := by
  rcases hr with h | h | h <;> simp [findCalories, h]

/-- What `FindMacros` returns once `findCalories` has produced `c`. -/
theorem FindMacros_of_findCalories (u : Profile) (c : ℚ) (h : findCalories u = some c) :
    FindMacros u = some
      { Carbs := (c - pCalRatio * (pMassRatio * leanBodyMass u.Weight u.BodyFat * kilo2Pound)
                    - fCalRatio * (fMassRatio * u.Weight * kilo2Pound)) / cCalRatio
        Protein := pMassRatio * leanBodyMass u.Weight u.BodyFat * kilo2Pound
        Fat := fMassRatio * u.Weight * kilo2Pound
        Calories := c } := by
  simp [FindMacros, h]

/-- A result of `FindMacros` comes from a result of `findCalories`. -/
theorem findCalories_of_FindMacros (u : Profile) (m : Macros) (h : FindMacros u = some m) :
    findCalories u = some m.Calories := by
  cases hc : findCalories u with
  | none => simp [FindMacros, hc] at h
  | some c =>
    rw [FindMacros_of_findCalories u c hc] at h
    cases h
    rfl

/-- The `Protein` and `Fat` fields of a result of `FindMacros`, as the code writes them. -/
theorem FindMacros_fields (u : Profile) (m : Macros) (h : FindMacros u = some m) :
    m.Protein = pMassRatio * leanBodyMass u.Weight u.BodyFat * kilo2Pound ∧
    m.Fat = fMassRatio * u.Weight * kilo2Pound := by
  have hc := findCalories_of_FindMacros u m h
  rw [FindMacros_of_findCalories u _ hc] at h
  have e := Option.some.inj h
  constructor
  · exact (congrArg Macros.Protein e).symm
  · exact (congrArg Macros.Fat e).symm

/-- Claim C1. For a profile whose gender is "male" or "female" and whose regime is "bulk",
"maintain" or "cut", `findCalories` returns
`activity_level * (HB + MSJ + KM) / 3 * modifier` with the Harris-Benedict,
Mifflin-St Jeor and Katch-McArdle estimates and the regime modifier of the description. -/
theorem findCalories_formula (u : Profile)
    (hg : u.Gender = "male" ∨ u.Gender = "female")
    (hr : u.Regime = "bulk" ∨ u.Regime = "maintain" ∨ u.Regime = "cut") :
    findCalories u = some
      (u.ActivityLevel *
        ((if u.Gender = "male" then 66 + 13.7 * u.Weight + 5 * u.Height - 6.76 * u.Age
            else 655 + 9.6 * u.Weight + 1.8 * u.Height - 4.7 * u.Age)
          + (9.99 * u.Weight + 6.25 * u.Height - 4.92 * u.Age
              + (if u.Gender = "male" then 5 else -161))
          + (370 + 21.6 * u.Weight * (1 - u.BodyFat))) / 3
        * (if u.Regime = "bulk" then 1.1 else if u.Regime = "maintain" then 1.0 else 0.9)) := by
  have hfm : ("female" = "male") = False := by decide
  have hmb : ("maintain" = "bulk") = False := by decide
  have hcb : ("cut" = "bulk") = False := by decide
  have hcm : ("cut" = "maintain") = False := by decide
  rcases hg with hg | hg <;> rcases hr with hr | hr | hr <;>
    simp only [findCalories, genderEstimates, leanBodyMass, bulkModifier, cutModifier, hg, hr,
      hfm, hmb, hcb, hcm, if_true, if_false, Option.some.injEq] <;>
    ring

/-- Witness for `findCalories_formula`: a male profile on the bulk regime. -/
theorem findCalories_formula_witness :
    findCalories ⟨80, 180, 0.15, 1.5, 30, "male", "bulk"⟩ = some
      (1.5 *
        ((if "male" = "male" then 66 + 13.7 * 80 + 5 * 180 - 6.76 * 30
            else 655 + 9.6 * 80 + 1.8 * 180 - 4.7 * 30)
          + (9.99 * 80 + 6.25 * 180 - 4.92 * 30 + (if "male" = "male" then 5 else -161))
          + (370 + 21.6 * 80 * (1 - 0.15))) / 3
        * (if "bulk" = "bulk" then 1.1 else if "bulk" = "maintain" then 1.0 else 0.9)) :=
  findCalories_formula ⟨80, 180, 0.15, 1.5, 30, "male", "bulk"⟩ (Or.inl rfl) (Or.inl rfl)

/-- Claim C2, as stated, fails. The claim restricts the gender only.  For the regime "keto",
which matches no case of the second `switch`, `findCalories` reaches no `return` statement
and `FindMacros` yields no `Macros` value.  In `float64`, for weight 50 and body fat 0.19
the code returns `Protein = 133.930824165`, while the product of the claim taken in its
own order, `1.5 * 50 * (1 - 0.19) * 2.20462262`, is `133.93082416500002`. -/
theorem FindMacros_protein_fat_counterexample :
    FindMacros ⟨80, 180, 0.15, 1.5, 30, "male", "keto"⟩ = none ∧
    Option.map inputs64.Macros.Protein
        (inputs64.FindMacros ⟨50, 180, 0.19, 1.5, 30, "male", "maintain"⟩)
      = some 133.930824165 ∧
    (1.5 * 50 * (1 - 0.19) * 2.20462262 : binary64) = 133.93082416500002 ∧
    binary64.eq 133.930824165 133.93082416500002 = false := by
  refine ⟨?_, ?_, ?_, ?_⟩
  · simp [FindMacros, findCalories]
  · decide!
  · decide!
  · decide!

/-- Claim C2, amended. For every profile whose regime is "bulk", "maintain" or "cut", whatever
its gender, `FindMacros` returns, in exact arithmetic,
`Protein = 1.5 * weight * (1 - body_fat) * 2.20462262` and
`Fat = 0.45 * weight * 2.20462262`; any other such profile with the same weight and body
fat gets the same protein and fat, whatever its height, age, activity level, gender and
regime. -/
theorem FindMacros_protein_fat (u : Profile)
    (hr : u.Regime = "bulk" ∨ u.Regime = "maintain" ∨ u.Regime = "cut") :
    ∃ m, FindMacros u = some m ∧
      m.Protein = 1.5 * u.Weight * (1 - u.BodyFat) * 2.20462262 ∧
      m.Fat = 0.45 * u.Weight * 2.20462262 ∧
      ∀ v : Profile, v.Weight = u.Weight → v.BodyFat = u.BodyFat →
        (v.Regime = "bulk" ∨ v.Regime = "maintain" ∨ v.Regime = "cut") →
        ∃ n, FindMacros v = some n ∧ n.Protein = m.Protein ∧ n.Fat = m.Fat := by
  obtain ⟨c, hc⟩ := findCalories_isSome u hr
  refine ⟨_, FindMacros_of_findCalories u c hc, ?_, ?_, ?_⟩
  · simp only [pMassRatio, kilo2Pound, leanBodyMass]
    ring
  · simp only [fMassRatio, kilo2Pound]
  · intro v hw hb hv
    obtain ⟨d, hd⟩ := findCalories_isSome v hv
    refine ⟨_, FindMacros_of_findCalories v d hd, ?_, ?_⟩
    · simp only [hw, hb]
    · simp only [hw]

/-- Witness for `FindMacros_protein_fat`: a female profile on the cut regime returns a
result with the stated protein and fat, the same as a male profile of the same weight and
body fat on the bulk regime. -/
theorem FindMacros_protein_fat_witness :
    ∃ m n, FindMacros ⟨60, 165, 0.25, 1.2, 40, "female", "cut"⟩ = some m ∧
      m.Protein = 1.5 * 60 * (1 - 0.25) * 2.20462262 ∧ m.Fat = 0.45 * 60 * 2.20462262 ∧
      FindMacros ⟨60, 180, 0.25, 1.9, 20, "male", "bulk"⟩ = some n ∧
      n.Protein = m.Protein ∧ n.Fat = m.Fat := by
  obtain ⟨m, hm, hp, hf, hind⟩ :=
    FindMacros_protein_fat ⟨60, 165, 0.25, 1.2, 40, "female", "cut"⟩ (Or.inr (Or.inr rfl))
  obtain ⟨n, hn, hnp, hnf⟩ :=
    hind ⟨60, 180, 0.25, 1.9, 20, "male", "bulk"⟩ rfl rfl (Or.inl rfl)
  exact ⟨m, n, hm, hp, hf, hn, hnp, hnf⟩

/-- Claim C3, as stated, fails. In `float64`, for weight 90, height 180, body fat 0.2, activity
level 1.5, age 30, male, maintain, `FindMacros` returns `Carbs = 286.3670207924999`,
`Protein = 238.09924296`, `Fat = 89.28721610999999` and `Calories = 2901.4499999999994`.
The sum `4 * Protein + 9 * Fat + 4 * Carbs` of these values is `2901.45` when computed in
`float64`, and differs from `Calories` when computed exactly as well. -/
theorem FindMacros_calorie_identity_counterexample :
    inputs64.FindMacros ⟨90, 180, 0.2, 1.5, 30, "male", "maintain"⟩ =
      some { Carbs := 286.3670207924999, Protein := 238.09924296,
             Fat := 89.28721610999999, Calories := 2901.4499999999994 } ∧
    (4 * 238.09924296 + 9 * 89.28721610999999 + 4 * 286.3670207924999 : binary64)
      = 2901.45 ∧
    binary64.eq 2901.45 2901.4499999999994 = false ∧
    (286.3670207924999 : binary64) = binary64.fin (5037821906766803 / 17592186044416) ∧
    (238.09924296 : binary64) = binary64.fin (8377372358373853 / 35184372088832) ∧
    (89.28721610999999 : binary64) = binary64.fin (6283029268780389 / 70368744177664) ∧
    (2901.4499999999994 : binary64) = binary64.fin (6380356024821349 / 2199023255552) ∧
    4 * (8377372358373853 / 35184372088832 : ℚ) + 9 * (6283029268780389 / 70368744177664)
        + 4 * (5037821906766803 / 17592186044416) ≠ 6380356024821349 / 2199023255552 := by
  refine ⟨?_, ?_, ?_, ?_, ?_, ?_, ?_, ?_⟩
  · decide!
  · decide!
  · decide!
  · decide!
  · decide!
  · decide!
  · decide!
  · norm_num

/-- Claim C3, amended. For every profile with a recognised regime (whatever its gender), with
the arithmetic of `FindMacros` taken exactly (no `float64` rounding), `FindMacros` returns
a `Macros` `m` whose `Calories` is the value of `findCalories` and which satisfies the
calorie accounting identity `4 * Protein + 9 * Fat + 4 * Carbs = Calories`. -/
theorem FindMacros_calorie_identity (u : Profile)
    (hr : u.Regime = "bulk" ∨ u.Regime = "maintain" ∨ u.Regime = "cut") :
    ∃ m, FindMacros u = some m ∧ findCalories u = some m.Calories ∧
      4 * m.Protein + 9 * m.Fat + 4 * m.Carbs = m.Calories := by
  obtain ⟨c, hc⟩ := findCalories_isSome u hr
  refine ⟨_, FindMacros_of_findCalories u c hc, hc, ?_⟩
  simp only [pCalRatio, fCalRatio, cCalRatio]
  field_simp

/-- Witness for `FindMacros_calorie_identity`: a male profile on the maintain regime. -/
theorem FindMacros_calorie_identity_witness :
    ∃ m, FindMacros ⟨80, 180, 0.15, 1.5, 30, "male", "maintain"⟩ = some m ∧
      findCalories ⟨80, 180, 0.15, 1.5, 30, "male", "maintain"⟩ = some m.Calories ∧
      4 * m.Protein + 9 * m.Fat + 4 * m.Carbs = m.Calories :=
  FindMacros_calorie_identity ⟨80, 180, 0.15, 1.5, 30, "male", "maintain"⟩ (Or.inr (Or.inl rfl))

/-- Claim C4. For profiles that differ only in regime, `findCalories` on "bulk" is exactly
`1.1` times, and on "cut" exactly `0.9` times, its value on "maintain". -/
theorem findCalories_regime_ratio (u : Profile) :
    ∃ cb cm cc,
      findCalories { u with Regime := "bulk" } = some cb ∧
      findCalories { u with Regime := "maintain" } = some cm ∧
      findCalories { u with Regime := "cut" } = some cc ∧
      cb = 1.1 * cm ∧ cc = 0.9 * cm := by
  refine ⟨_, _, _, findCalories_bulk u, findCalories_maintain u, findCalories_cut u, ?_, ?_⟩
  · simp only [bulkModifier]; ring
  · simp only [cutModifier]; ring

/-- Claim C5, as stated, fails. The profile weight 2, height 1, body fat 0, activity level 1,
age 100, male lies in the numeric domain, yet its three estimates sum to `-625.17`, so
`findCalories` is negative and the order is reversed: bulk `-229.229` is below maintain
`-208.39`, which is below cut `-187.551`. -/
theorem findCalories_order_counterexample :
    inDomain ⟨2, 1, 0, 1, 100, "male", "maintain"⟩ ∧
    findCalories ⟨2, 1, 0, 1, 100, "male", "bulk"⟩ = some (-229.229) ∧
    findCalories ⟨2, 1, 0, 1, 100, "male", "maintain"⟩ = some (-208.39) ∧
    findCalories ⟨2, 1, 0, 1, 100, "male", "cut"⟩ = some (-187.551) ∧
    ¬ ((-229.229 : ℚ) > -208.39 ∧ (-208.39 : ℚ) > -187.551) := by
  refine ⟨?_, ?_, ?_, ?_, ?_⟩
  · norm_num [inDomain]
  · simp [findCalories, genderEstimates, leanBodyMass, bulkModifier]
    norm_num
  · simp [findCalories, genderEstimates, leanBodyMass]
    norm_num
  · simp [findCalories, genderEstimates, leanBodyMass, cutModifier]
    norm_num
  · norm_num

/-- Claim C5, amended. For every profile, with all other fields fixed, `findCalories` on "bulk"
is strictly greater than on "maintain", which is strictly greater than on "cut", exactly
when the value on "maintain" is positive. -/
theorem findCalories_order_iff_pos (u : Profile) :
    ∃ cb cm cc,
      findCalories { u with Regime := "bulk" } = some cb ∧
      findCalories { u with Regime := "maintain" } = some cm ∧
      findCalories { u with Regime := "cut" } = some cc ∧
      ((cb > cm ∧ cm > cc) ↔ 0 < cm) := by
  refine ⟨_, _, _, findCalories_bulk u, findCalories_maintain u, findCalories_cut u, ?_⟩
  simp only [bulkModifier, cutModifier]
  generalize u.ActivityLevel * ((genderEstimates u).1 + (genderEstimates u).2
    + (370 + (leanBodyMass u.Weight u.BodyFat * 21.6))) / 3 = c
  constructor
  · rintro ⟨h, -⟩
    norm_num at h
    linarith
  · intro h
    constructor <;> norm_num <;> linarith

/-- Witness for `findCalories_order_iff_pos`: for weight 80, height 180, body fat 0.15,
activity level 1.5, age 30, male, the maintain value `2739.8` is positive and the three
values are strictly ordered. -/
theorem findCalories_order_iff_pos_witness :
    ∃ cb cc,
      findCalories ⟨80, 180, 0.15, 1.5, 30, "male", "bulk"⟩ = some cb ∧
      findCalories ⟨80, 180, 0.15, 1.5, 30, "male", "maintain"⟩ = some 2739.8 ∧
      findCalories ⟨80, 180, 0.15, 1.5, 30, "male", "cut"⟩ = some cc ∧
      cb > 2739.8 ∧ 2739.8 > cc := by
  obtain ⟨cb, cm, cc, hb, hm, hc, hiff⟩ :=
    findCalories_order_iff_pos ⟨80, 180, 0.15, 1.5, 30, "male", "maintain"⟩
  have e : findCalories ⟨80, 180, 0.15, 1.5, 30, "male", "maintain"⟩ = some 2739.8 := by
    simp [findCalories, genderEstimates, leanBodyMass]
    norm_num
  have hcm : cm = 2739.8 := Option.some.inj (hm.symm.trans e)
  subst hcm
  exact ⟨cb, cc, hb, e, hc, hiff.mpr (by norm_num)⟩

/-- Claim C6, as stated, fails. The claim puts no condition on the regime: for the regime
"keto" `FindMacros` yields no `Macros` value at either weight.  In `float64`, the weights
`40.125` and `40.12500000000001` (the next `float64` value) are strictly ordered and
`FindMacros` returns the same `Fat = 39.807217182375005` for both. -/
theorem FindMacros_weight_monotone_counterexample :
    FindMacros ⟨70, 180, 0.15, 1.5, 30, "male", "keto"⟩ = none ∧
    FindMacros ⟨80, 180, 0.15, 1.5, 30, "male", "keto"⟩ = none ∧
    binary64.lt 40.125 40.12500000000001 = true ∧
    Option.map inputs64.Macros.Fat
        (inputs64.FindMacros ⟨40.125, 180, 0.2, 1.5, 30, "male", "maintain"⟩)
      = some 39.807217182375005 ∧
    Option.map inputs64.Macros.Fat
        (inputs64.FindMacros ⟨40.12500000000001, 180, 0.2, 1.5, 30, "male", "maintain"⟩)
      = some 39.807217182375005 := by
  refine ⟨?_, ?_, ?_, ?_, ?_⟩
  · simp [FindMacros, findCalories]
  · simp [FindMacros, findCalories]
  · decide!
  · decide!
  · decide!

/-- Claim C6, amended. For two profiles with a recognised regime that agree on every field
except weight, with body fat below 1 and `w1 < w2`, `FindMacros` returns, in exact
arithmetic, `Protein` and `Fat` strictly larger at `w2`. -/
theorem FindMacros_weight_monotone (u : Profile) (w1 w2 : ℚ)
    (hr : u.Regime = "bulk" ∨ u.Regime = "maintain" ∨ u.Regime = "cut")
    (hbf : u.BodyFat < 1) (hw : w1 < w2) :
    ∃ m1 m2, FindMacros { u with Weight := w1 } = some m1 ∧
      FindMacros { u with Weight := w2 } = some m2 ∧
      m1.Protein < m2.Protein ∧ m1.Fat < m2.Fat := by
  obtain ⟨c1, hc1⟩ := findCalories_isSome { u with Weight := w1 } hr
  obtain ⟨c2, hc2⟩ := findCalories_isSome { u with Weight := w2 } hr
  refine ⟨_, _, FindMacros_of_findCalories _ c1 hc1, FindMacros_of_findCalories _ c2 hc2,
    ?_, ?_⟩
  · simp only [pMassRatio, kilo2Pound, leanBodyMass]
    have hb : 0 < 1 - u.BodyFat := by linarith
    have hlean : w1 * (1 - u.BodyFat) < w2 * (1 - u.BodyFat) :=
      mul_lt_mul_of_pos_right hw hb
    norm_num
    linarith
  · simp only [fMassRatio, kilo2Pound]
    norm_num
    linarith

/-- Witness for `FindMacros_weight_monotone`: weights 70 and 80 at body fat 0.15. -/
theorem FindMacros_weight_monotone_witness :
    ∃ m1 m2, FindMacros ⟨70, 180, 0.15, 1.5, 30, "male", "maintain"⟩ = some m1 ∧
      FindMacros ⟨80, 180, 0.15, 1.5, 30, "male", "maintain"⟩ = some m2 ∧
      m1.Protein < m2.Protein ∧ m1.Fat < m2.Fat :=
  FindMacros_weight_monotone ⟨0, 180, 0.15, 1.5, 30, "male", "maintain"⟩ 70 80
    (Or.inr (Or.inl rfl)) (by norm_num) (by norm_num)

/-- Claim C7. For weight 80, height 180, body fat 0.15, activity level 1.5, age 30, male,
maintain, `FindMacros` returns `Calories = 2739.8`, which is 1.5 times the average of the
three estimates `1859.2`, `1781.6` and `1838.8` with no modifier, `Protein = 224.87150724`
(within 0.005 of 224.87) and `Fat = 79.36641432` (within 0.005 of 79.37). -/
theorem FindMacros_scenario :
    FindMacros ⟨80, 180, 0.15, 1.5, 30, "male", "maintain"⟩ =
      some { Carbs := 281.50406054, Protein := 224.87150724, Fat := 79.36641432,
             Calories := 2739.8 } ∧
    genderEstimates ⟨80, 180, 0.15, 1.5, 30, "male", "maintain"⟩ = (1859.2, 1781.6) ∧
    370 + leanBodyMass 80 0.15 * 21.6 = 1838.8 ∧
    (2739.8 : ℚ) = 1.5 * ((1859.2 + 1781.6 + 1838.8) / 3) ∧
    |(224.87150724 : ℚ) - 224.87| < 0.005 ∧
    |(79.36641432 : ℚ) - 79.37| < 0.005 := by
  refine ⟨?_, ?_, ?_, ?_, ?_, ?_⟩
  · simp [FindMacros, findCalories, genderEstimates, leanBodyMass, pMassRatio, kilo2Pound,
      fMassRatio, pCalRatio, fCalRatio, cCalRatio]
    norm_num
  · norm_num [genderEstimates]
  · norm_num [leanBodyMass]
  · norm_num
  · norm_num [abs_lt]
  · norm_num [abs_lt]

end inputs

/-! ## Recipe generation (`outputs.go`) -/

namespace outputs

open float64

@[simp] theorem fin_add (a b : ℚ) : fin a + fin b = fin (a + b) := rfl

@[simp] theorem fin_sub (a b : ℚ) : fin a - fin b = fin (a - b) := rfl

@[simp] theorem fin_mul (a b : ℚ) : fin a * fin b = fin (a * b) := rfl

/-- Division of finite values, as `float64.div` defines it. -/
theorem fin_div (a b : ℚ) :
    fin a / fin b = if b = 0 then (if a = 0 then nan else infOfSign a) else fin (a / b) := rfl

/-- Division by a non-zero finite value is the exact quotient. -/
theorem fin_div_of_ne (a b : ℚ) (h : b ≠ 0) : fin a / fin b = fin (a / b) := by
  rw [fin_div, if_neg h]

/-- Division of a finite value by zero: NaN for zero, else the infinity of its sign. -/
theorem fin_div_zero (a : ℚ) : fin a / fin 0 = if a = 0 then nan else infOfSign a := by
  rw [fin_div, if_pos rfl]

/-- A finite value divided by zero is not finite. -/
theorem fin_div_zero_not_finite (a : ℚ) : isFinite (fin a / fin 0) = false := by
  rw [fin_div_zero]
  by_cases h : a = 0
  · rw [if_pos h]; rfl
  · rw [if_neg h]
    unfold infOfSign
    split <;> rfl

/-- A value that is not finite, multiplied by zero, is NaN. -/
theorem mul_zero_of_not_finite (x : float64) (h : isFinite x = false) : x * fin 0 = nan := by
  cases x with
  | fin q => simp [isFinite] at h
  | posInf => rfl
  | negInf => rfl
  | nan => rfl

@[simp] theorem nan_sub (x : float64) : nan - x = nan := by cases x <;> rfl

@[simp] theorem sub_nan (x : float64) : x - nan = nan := by cases x <;> rfl

@[simp] theorem nan_add (x : float64) : nan + x = nan := by cases x <;> rfl

@[simp] theorem add_nan (x : float64) : x + nan = nan := by cases x <;> rfl

@[simp] theorem nan_div (x : float64) : nan / x = nan := by cases x <;> rfl

@[simp] theorem nan_mul (x : float64) : nan * x = nan := by cases x <;> rfl

/-- Subtracting zero changes no value, finite or not. -/
theorem sub_fin_zero (x : float64) : x - fin 0 = x := by
  cases x with
  | fin q => simp
  | posInf => rfl
  | negInf => rfl
  | nan => rfl

/-- Multiplying by one changes no value, finite or not. -/
theorem mul_fin_one (x : float64) : x * fin 1 = x := by
  cases x with
  | fin q => simp
  | posInf => simp [HMul.hMul, Mul.mul, float64.mul, infOfSign]
  | negInf => simp [HMul.hMul, Mul.mul, float64.mul, infOfSign]
  | nan => rfl

/-- The oat quantity, computed from the calories alone. -/
theorem Oats_eq (t : Ingredients) (m : Macros) :
    (GenerateRecipeWith t m).Oats = fin (200 + 150 * (m.Calories - 1600) / (3400 - 1600)) := by
  show oatBase + oatMod * (fin m.Calories - calLower) / (calUpper - calLower) = _
  simp only [oatBase, oatMod, calLower, calUpper, fin_sub, fin_mul]
  rw [fin_div_of_ne _ _ (by norm_num), fin_add]

/-- The whey statement. -/
theorem Whey_eq (t : Ingredients) (m : Macros) :
    (GenerateRecipeWith t m).Whey =
      (fin m.Protein - (GenerateRecipeWith t m).Oats * fin t.Oats.Protein)
        / fin t.Whey.Protein := rfl

/-- The psyllium statement. -/
theorem Psyllium_eq (t : Ingredients) (m : Macros) :
    (GenerateRecipeWith t m).Psyllium =
      ((fin m.Calories / fin 1000) * fibreRatio
          - (GenerateRecipeWith t m).Whey * fin t.Whey.Fibre
          - (GenerateRecipeWith t m).Oats * fin t.Oats.Fibre) / fin t.Psyllium.Fibre := rfl

/-- The oil statement. -/
theorem Oil_eq (t : Ingredients) (m : Macros) :
    (GenerateRecipeWith t m).Oil =
      fin m.Fat - (GenerateRecipeWith t m).Oats * fin t.Oats.Fat
        - (GenerateRecipeWith t m).Whey * fin t.Whey.Fat := rfl

/-- The maltodextrin statement. -/
theorem Maltodextrin_eq (t : Ingredients) (m : Macros) :
    (GenerateRecipeWith t m).Maltodextrin =
      fin m.Carbs - (GenerateRecipeWith t m).Oats * fin t.Oats.Carbs
        - (GenerateRecipeWith t m).Whey * fin t.Whey.Carbs
        - (GenerateRecipeWith t m).Psyllium - fin t.Psyllium.Carbs := rfl

/-- With a non-zero whey protein content the whey quantity is finite. -/
theorem Whey_of_ne (t : Ingredients) (m : Macros) (h : t.Whey.Protein ≠ 0) :
    (GenerateRecipeWith t m).Whey =
      fin ((m.Protein - (200 + 150 * (m.Calories - 1600) / (3400 - 1600)) * t.Oats.Protein)
            / t.Whey.Protein) := by
  rw [Whey_eq, Oats_eq, fin_mul, fin_sub, fin_div_of_ne _ _ h]

/-- With non-zero whey protein and psyllium fibre contents the psyllium quantity is
finite. -/
theorem Psyllium_of_ne (t : Ingredients) (m : Macros) (h : t.Whey.Protein ≠ 0)
    (hp : t.Psyllium.Fibre ≠ 0) :
    (GenerateRecipeWith t m).Psyllium =
      fin ((m.Calories / 1000 * 14
            - (m.Protein - (200 + 150 * (m.Calories - 1600) / (3400 - 1600)) * t.Oats.Protein)
                / t.Whey.Protein * t.Whey.Fibre
            - (200 + 150 * (m.Calories - 1600) / (3400 - 1600)) * t.Oats.Fibre)
          / t.Psyllium.Fibre) := by
  rw [Psyllium_eq, Whey_of_ne t m h, Oats_eq, fibreRatio, fin_div_of_ne _ _ (by norm_num),
    fin_mul, fin_mul, fin_mul, fin_sub, fin_sub, fin_div_of_ne _ _ hp]

/-- On the zero-valued locals the whey quantity is never finite. -/
theorem Whey_locals_not_finite (m : Macros) : isFinite (GenerateRecipe m).Whey = false := by
  show isFinite (GenerateRecipeWith locals m).Whey = false
  rw [Whey_eq, Oats_eq, fin_mul, fin_sub]
  exact fin_div_zero_not_finite _

/-- Claim C8. For every `Macros` `m`, `GenerateRecipe` returns
`Oats = 200 + 150 * (m.Calories - 1600) / (3400 - 1600)`; with `Calories = 1600` this is
exactly 200 and with `Calories = 3400` exactly 350, whatever the other fields. -/
theorem GenerateRecipe_Oats (m : Macros) (c p f : ℚ) :
    (GenerateRecipe m).Oats = fin (200 + 150 * (m.Calories - 1600) / (3400 - 1600)) ∧
    (GenerateRecipe ⟨c, p, f, 1600⟩).Oats = fin 200 ∧
    (GenerateRecipe ⟨c, p, f, 3400⟩).Oats = fin 350 := by
  refine ⟨Oats_eq locals m, ?_, ?_⟩
  · rw [GenerateRecipe, Oats_eq]
    norm_num
  · rw [GenerateRecipe, Oats_eq]
    norm_num

/-- The statements of `GenerateRecipe` do what its doc comment describes once the contents
are not zero: on per-unit contents `t` with non-zero `Whey.Protein` and `Psyllium.Fibre`
and zero `Psyllium.Carbs`, in exact arithmetic, the quantities reproduce the protein
target from oats and whey, the fat target from oats, whey and oil, and the carbohydrate
target from oats, whey and maltodextrin together with the psyllium quantity. -/
theorem GenerateRecipeWith_roundtrip (t : Ingredients) (m : Macros)
    (hw : t.Whey.Protein ≠ 0) (hp : t.Psyllium.Fibre ≠ 0) (hc : t.Psyllium.Carbs = 0) :
    (GenerateRecipeWith t m).Oats * fin t.Oats.Protein
        + (GenerateRecipeWith t m).Whey * fin t.Whey.Protein = fin m.Protein ∧
    (GenerateRecipeWith t m).Oats * fin t.Oats.Fat
        + (GenerateRecipeWith t m).Whey * fin t.Whey.Fat
        + (GenerateRecipeWith t m).Oil = fin m.Fat ∧
    (GenerateRecipeWith t m).Oats * fin t.Oats.Carbs
        + (GenerateRecipeWith t m).Whey * fin t.Whey.Carbs
        + (GenerateRecipeWith t m).Maltodextrin
        + (GenerateRecipeWith t m).Psyllium = fin m.Carbs := by
  refine ⟨?_, ?_, ?_⟩
  · rw [Whey_of_ne t m hw, Oats_eq, fin_mul, fin_mul, fin_add]
    congr 1
    field_simp
    ring
  · rw [Oil_eq, Whey_of_ne t m hw, Oats_eq]
    simp only [fin_mul, fin_sub, fin_add]
    congr 1
    ring
  · rw [Maltodextrin_eq, Psyllium_of_ne t m hw hp, Whey_of_ne t m hw, Oats_eq, hc]
    simp only [fin_mul, fin_sub, fin_add]
    congr 1
    ring

end outputs

/-! ## Recipe generation: fibre and the fixed doses -/

namespace outputs

open float64

/-- The potassium statement. -/
theorem Potassium_eq (t : Ingredients) (m : Macros) :
    (GenerateRecipeWith t m).Potassium =
      potassiumReq - (GenerateRecipeWith t m).Oats * fin t.Oats.Potassium
        - (GenerateRecipeWith t m).Multivitamin * fin t.Multivitamin.Potassium := rfl

/-- On the zero-valued locals the product of the whey quantity with any content is NaN. -/
theorem Whey_mul_locals (m : Macros) : (GenerateRecipe m).Whey * fin 0 = nan :=
  mul_zero_of_not_finite _ (Whey_locals_not_finite m)

/-- On the zero-valued locals the psyllium quantity is NaN. -/
theorem Psyllium_locals (m : Macros) : (GenerateRecipe m).Psyllium = nan := by
  show (GenerateRecipeWith locals m).Psyllium = nan
  rw [Psyllium_eq]
  show (_ - (GenerateRecipe m).Whey * fin 0 - _) / _ = nan
  rw [Whey_mul_locals, sub_nan, nan_sub, nan_div]

/-- On the zero-valued locals the oil quantity is NaN. -/
theorem Oil_locals (m : Macros) : (GenerateRecipe m).Oil = nan := by
  show (GenerateRecipeWith locals m).Oil = nan
  rw [Oil_eq]
  show _ - (GenerateRecipe m).Whey * fin 0 = nan
  rw [Whey_mul_locals, sub_nan]

/-- On the zero-valued locals the maltodextrin quantity is NaN. -/
theorem Maltodextrin_locals (m : Macros) : (GenerateRecipe m).Maltodextrin = nan := by
  show (GenerateRecipeWith locals m).Maltodextrin = nan
  rw [Maltodextrin_eq]
  show _ - (GenerateRecipe m).Whey * fin 0 - _ - _ = nan
  rw [Whey_mul_locals, sub_nan, nan_sub, nan_sub]

/-- On contents with non-zero `Whey.Protein` and `Psyllium.Fibre` the psyllium statement
meets the fibre target of 14 g per 1000 kcal. -/
theorem GenerateRecipeWith_fibre (t : Ingredients) (m : Macros)
    (hw : t.Whey.Protein ≠ 0) (hp : t.Psyllium.Fibre ≠ 0) :
    (GenerateRecipeWith t m).Psyllium * fin t.Psyllium.Fibre
        + (GenerateRecipeWith t m).Whey * fin t.Whey.Fibre
        + (GenerateRecipeWith t m).Oats * fin t.Oats.Fibre = fin (14 * m.Calories / 1000) := by
  rw [Psyllium_of_ne t m hw hp, Whey_of_ne t m hw, Oats_eq]
  simp only [fin_mul, fin_add]
  congr 1
  field_simp
  ring

/-- Claim C11: the code at a failing input.  For the targets carbs 300, protein 100, fat 50,
calories 2500 the fibre target is `14 * 2500 / 1000 = 35`, but the divisor
`Psyllium.Fibre` is zero and so is `Whey.Protein`: `Whey` is `+Inf`, `Psyllium` is NaN and
the fibre of the recipe, `Psyllium * Psyllium.Fibre + Whey * Whey.Fibre + Oats * Oats.Fibre`,
is NaN, not 35.  The psyllium quantity is NaN for every `m`. -/
theorem GenerateRecipe_fibre_fails (m : Macros) :
    locals.Psyllium.Fibre = 0 ∧ locals.Whey.Protein = 0 ∧
    (GenerateRecipe m).Psyllium = nan ∧
    (GenerateRecipe ⟨300, 100, 50, 2500⟩).Whey = posInf ∧
    (GenerateRecipe ⟨300, 100, 50, 2500⟩).Psyllium * fin locals.Psyllium.Fibre
        + (GenerateRecipe ⟨300, 100, 50, 2500⟩).Whey * fin locals.Whey.Fibre
        + (GenerateRecipe ⟨300, 100, 50, 2500⟩).Oats * fin locals.Oats.Fibre = nan ∧
    (nan : float64) ≠ fin (14 * 2500 / 1000) := by
  have hw : (GenerateRecipe ⟨300, 100, 50, 2500⟩).Whey = posInf := by
    show (GenerateRecipeWith locals ⟨300, 100, 50, 2500⟩).Whey = posInf
    rw [Whey_eq, Oats_eq]
    show (fin 100 - fin _ * fin 0) / fin 0 = posInf
    rw [fin_mul, fin_sub, fin_div_zero]
    norm_num [infOfSign]
  refine ⟨rfl, rfl, Psyllium_locals m, hw, ?_, ?_⟩
  · rw [Psyllium_locals]
    show nan * _ + _ + _ = nan
    rw [nan_mul, nan_add, nan_add]
  · intro h
    cases h

/-- Claim C13. For every `Macros` `m`, `GenerateRecipe` returns `Salt = 4.0`,
`Multivitamin = 1.8` and `Choline = 1.0`, whatever the four fields of `m`. -/
theorem GenerateRecipe_fixed_doses (m : Macros) :
    (GenerateRecipe m).Salt = fin 4.0 ∧
    (GenerateRecipe m).Multivitamin = fin 1.8 ∧
    (GenerateRecipe m).Choline = fin 1.0 :=
  ⟨rfl, rfl, rfl⟩

end outputs

/-! ## Profiles outside the intended domain -/

namespace inputs

/-- Claim C14, as stated, fails. For weight 80, height 180, body fat 0.15, activity level 1.5,
age 30, regime "maintain" and gender "other", `FindMacros` reports no error: it returns a
`Macros` value, computed with both gender-specific estimates at zero (calories 919.4,
carbs -173.59593946). -/
theorem FindMacros_unknown_gender_counterexample :
    FindMacros ⟨80, 180, 0.15, 1.5, 30, "other", "maintain"⟩ =
      some { Carbs := -173.59593946, Protein := 224.87150724, Fat := 79.36641432,
             Calories := 919.4 } ∧
    genderEstimates ⟨80, 180, 0.15, 1.5, 30, "other", "maintain"⟩ = (0, 0) := by
  constructor
  · simp [FindMacros, findCalories, genderEstimates, leanBodyMass, pMassRatio, kilo2Pound,
      fMassRatio, pCalRatio, fCalRatio, cCalRatio]
    norm_num
  · simp [genderEstimates]

/-- Claim C14, amended. For every profile whose regime is "bulk", "maintain" or "cut",
whatever its gender (also one that is neither "male" nor "female"), `FindMacros` returns a
`Macros` value: the gender is not validated and the result carries no error.  The value
has `Calories` from `findCalories`, the usual `Protein` and `Fat`, and `Carbs` the
remainder. -/
theorem FindMacros_unknown_gender (u : Profile)
    (hr : u.Regime = "bulk" ∨ u.Regime = "maintain" ∨ u.Regime = "cut") :
    ∃ m, FindMacros u = some m ∧ findCalories u = some m.Calories ∧
      m.Protein = 1.5 * u.Weight * (1 - u.BodyFat) * 2.20462262 ∧
      m.Fat = 0.45 * u.Weight * 2.20462262 ∧
      m.Carbs = (m.Calories - 4 * m.Protein - 9 * m.Fat) / 4 := by
  obtain ⟨c, hc⟩ := findCalories_isSome u hr
  refine ⟨_, FindMacros_of_findCalories u c hc, hc, ?_, ?_, ?_⟩
  · simp only [pMassRatio, kilo2Pound, leanBodyMass]
    ring
  · simp only [fMassRatio, kilo2Pound]
  · simp only [pCalRatio, fCalRatio, cCalRatio]

/-- Witness for `FindMacros_unknown_gender`: gender "other" on the maintain regime. -/
theorem FindMacros_unknown_gender_witness :
    ∃ m, FindMacros ⟨80, 180, 0.15, 1.5, 30, "other", "maintain"⟩ = some m ∧
      findCalories ⟨80, 180, 0.15, 1.5, 30, "other", "maintain"⟩ = some m.Calories ∧
      m.Protein = 1.5 * 80 * (1 - 0.15) * 2.20462262 ∧
      m.Fat = 0.45 * 80 * 2.20462262 ∧
      m.Carbs = (m.Calories - 4 * m.Protein - 9 * m.Fat) / 4 :=
  FindMacros_unknown_gender ⟨80, 180, 0.15, 1.5, 30, "other", "maintain"⟩ (Or.inr (Or.inl rfl))

/-- Claim C15, as stated, fails. For weight 150, height 150, body fat 0, activity level 1,
age 80, female, cut, the calories 2244.12 do not cover protein and fat, and `FindMacros`
returns a `Macros` value whose `Carbs` is the negative number -269.8371499125; no report
goes with it.  Likewise `outputs.GenerateRecipe` returns a recipe with `Oats = -150` for
calories -2600. -/
theorem FindMacros_negative_carbs_counterexample :
    FindMacros ⟨150, 150, 0, 1, 80, "female", "cut"⟩ =
      some { Carbs := -269.8371499125, Protein := 496.0400895, Fat := 148.81202685,
             Calories := 2244.12 } ∧
    (-269.8371499125 : ℚ) < 0 ∧
    (outputs.GenerateRecipe ⟨0, 0, 0, -2600⟩).Oats = outputs.float64.fin (-150) := by
  refine ⟨?_, ?_, ?_⟩
  · simp [FindMacros, findCalories, genderEstimates, leanBodyMass, pMassRatio, kilo2Pound,
      fMassRatio, pCalRatio, fCalRatio, cCalRatio, cutModifier]
    norm_num
  · norm_num
  · rw [outputs.GenerateRecipe, outputs.Oats_eq]
    norm_num

end inputs

/-! ## The earlier calculator (`find_macros.go`) -/

namespace find_macros

/-- For a recognised regime every field of the result is assigned from the profile, so
the value held by `user_macros` before the call has no influence. -/
theorem find_macros_recognised (u : Profile) (s s' : Macros)
    (hr : u.regime = "bulk" ∨ u.regime = "maintain" ∨ u.regime = "cut") :
    find_macros u s = find_macros u s' := by
  have hmb : ("maintain" = "bulk") = False := by decide
  have hcb : ("cut" = "bulk") = False := by decide
  have hcm : ("cut" = "maintain") = False := by decide
  rcases hr with h | h | h <;>
    simp only [find_macros, h, hmb, hcb, hcm, if_true, if_false]

/-- For a regime that matches no case the returned `calories` is the value the field had
before the call. -/
theorem find_macros_unrecognised (u : Profile) (s : Macros)
    (hb : u.regime ≠ "bulk") (hm : u.regime ≠ "maintain") (hc : u.regime ≠ "cut") :
    (find_macros u s).1.calories = s.calories := by
  simp only [find_macros, if_neg hb, if_neg hm, if_neg hc]

/-- Claim C16: the code at a failing input.  For the profile weight 80, height 180, body fat
0.15, activity level 1.5, age 30, male with the regime "keto", which matches no case,
`find_macros` returns `calories = 0` when `user_macros` is at its initial value and
`calories = 2739.8` when an earlier call left `2739.8` there: the two results differ. -/
theorem find_macros_stale_calories :
    (find_macros ⟨80, 180, 0.15, 1.5, 30, "male", "keto"⟩ user_macros).1.calories = 0 ∧
    (find_macros ⟨80, 180, 0.15, 1.5, 30, "male", "keto"⟩
        { user_macros with calories := 2739.8 }).1.calories = 2739.8 ∧
    (find_macros ⟨80, 180, 0.15, 1.5, 30, "male", "keto"⟩ user_macros).1 ≠
      (find_macros ⟨80, 180, 0.15, 1.5, 30, "male", "keto"⟩
        { user_macros with calories := 2739.8 }).1 := by
  have h0 : (find_macros ⟨80, 180, 0.15, 1.5, 30, "male", "keto"⟩ user_macros).1.calories
      = 0 :=
    find_macros_unrecognised _ _ (by decide) (by decide) (by decide)
  have h1 : (find_macros ⟨80, 180, 0.15, 1.5, 30, "male", "keto"⟩
      { user_macros with calories := 2739.8 }).1.calories = 2739.8 :=
    find_macros_unrecognised _ _ (by decide) (by decide) (by decide)
  refine ⟨h0, h1, ?_⟩
  intro h
  have h2 := congrArg Macros.calories h
  rw [h0, h1] at h2
  norm_num at h2

/-- The `protein` and `fat` of the result of `find_macros`, for every regime. -/
theorem find_macros_protein_fat (u : Profile) (s : Macros) :
    (find_macros u s).1.protein = 1.5 * (u.weight * kilo2pound * (1 - u.body_fat)) ∧
    (find_macros u s).1.fat = u.weight * kilo2pound * 0.45 := by
  simp only [find_macros]
  split_ifs <;> exact ⟨rfl, rfl⟩

/-- The `carbs` of the result of `find_macros` is the remainder of its `calories`. -/
theorem find_macros_carbs (u : Profile) (s : Macros) :
    (find_macros u s).1.carbs =
      ((find_macros u s).1.calories - 9 * (find_macros u s).1.fat
        - 4 * (find_macros u s).1.protein) / 4 := by
  simp only [find_macros]
  split_ifs <;> rfl

/-- The `calories` of the result of `find_macros` for a recognised regime. -/
theorem find_macros_calories (u : Profile) (s : Macros)
    (hr : u.regime = "bulk" ∨ u.regime = "maintain" ∨ u.regime = "cut") :
    (find_macros u s).1.calories =
      avg_calories u *
        (if u.regime = "bulk" then 1.1 else if u.regime = "maintain" then 1 else 0.9) := by
  have hmb : ("maintain" = "bulk") = False := by decide
  have hcb : ("cut" = "bulk") = False := by decide
  have hcm : ("cut" = "maintain") = False := by decide
  rcases hr with h | h | h <;>
    simp only [find_macros, h, hmb, hcb, hcm, if_true, if_false, mul_one]

/-- The value of the library `findCalories` for a recognised regime, in terms of
`avg_calories`. -/
theorem findCalories_avg (u : inputs.Profile)
    (hr : u.Regime = "bulk" ∨ u.Regime = "maintain" ∨ u.Regime = "cut") :
    inputs.findCalories u = some
      (u.ActivityLevel * avg_calories (ofInputs u) *
        (if u.Regime = "bulk" then 1.1 else if u.Regime = "maintain" then 1 else 0.9)) := by
  have hmb : ("maintain" = "bulk") = False := by decide
  have hcb : ("cut" = "bulk") = False := by decide
  have hcm : ("cut" = "maintain") = False := by decide
  have havg : avg_calories (ofInputs u) =
      ((inputs.genderEstimates u).1 + (inputs.genderEstimates u).2
        + (370 + (inputs.leanBodyMass u.Weight u.BodyFat * 21.6))) / 3 := by
    simp only [avg_calories, ofInputs, inputs.genderEstimates, inputs.leanBodyMass]
  rw [havg]
  rcases hr with h | h | h <;>
    simp only [inputs.findCalories, h, hmb, hcb, hcm, if_true, if_false, Option.some.injEq,
      inputs.bulkModifier, inputs.cutModifier] <;>
    ring

/-- Claim C19. For every library profile with a recognised regime (whatever its gender) and
every prior value of `user_macros`, `find_macros` and `inputs.FindMacros` return the same
`Protein` and `Fat`; the earlier calculator returns `calories = avg_calories * modifier`,
the library `Calories = activity_level * avg_calories * modifier`; each returns as carbs
the remainder of its own calories.  With activity level 1 all four fields agree. -/
theorem find_macros_agrees_with_FindMacros (u : inputs.Profile) (s : Macros)
    (hr : u.Regime = "bulk" ∨ u.Regime = "maintain" ∨ u.Regime = "cut") :
    ∃ m, inputs.FindMacros u = some m ∧
      m.Protein = (find_macros (ofInputs u) s).1.protein ∧
      m.Fat = (find_macros (ofInputs u) s).1.fat ∧
      (find_macros (ofInputs u) s).1.calories =
        avg_calories (ofInputs u) *
          (if u.Regime = "bulk" then 1.1 else if u.Regime = "maintain" then 1 else 0.9) ∧
      m.Calories =
        u.ActivityLevel * avg_calories (ofInputs u) *
          (if u.Regime = "bulk" then 1.1 else if u.Regime = "maintain" then 1 else 0.9) ∧
      m.Carbs = (m.Calories - 4 * m.Protein - 9 * m.Fat) / 4 ∧
      (find_macros (ofInputs u) s).1.carbs =
        ((find_macros (ofInputs u) s).1.calories - 4 * (find_macros (ofInputs u) s).1.protein
          - 9 * (find_macros (ofInputs u) s).1.fat) / 4 ∧
      (u.ActivityLevel = 1 →
        m.Carbs = (find_macros (ofInputs u) s).1.carbs ∧
        m.Calories = (find_macros (ofInputs u) s).1.calories) := by
  obtain ⟨hp, hf⟩ := find_macros_protein_fat (ofInputs u) s
  have hcal := find_macros_calories (ofInputs u) s hr
  have hcarbs := find_macros_carbs (ofInputs u) s
  have hP : inputs.pMassRatio * inputs.leanBodyMass u.Weight u.BodyFat * inputs.kilo2Pound
      = (find_macros (ofInputs u) s).1.protein := by
    rw [hp]
    simp only [ofInputs, inputs.pMassRatio, inputs.kilo2Pound, kilo2pound, inputs.leanBodyMass]
    ring
  have hF : inputs.fMassRatio * u.Weight * inputs.kilo2Pound
      = (find_macros (ofInputs u) s).1.fat := by
    rw [hf]
    simp only [ofInputs, inputs.fMassRatio, inputs.kilo2Pound, kilo2pound]
    ring
  refine ⟨_, inputs.FindMacros_of_findCalories u _ (findCalories_avg u hr),
    hP, hF, hcal, rfl, ?_, ?_, ?_⟩
  · simp only [inputs.pCalRatio, inputs.fCalRatio, inputs.cCalRatio]
  · rw [hcarbs]
    ring
  · intro ha
    have hcal' : (find_macros (ofInputs u) s).1.calories =
        u.ActivityLevel * avg_calories (ofInputs u) *
          (if u.Regime = "bulk" then 1.1 else if u.Regime = "maintain" then 1 else 0.9) := by
      rw [hcal, ha, one_mul]
      rfl
    refine ⟨?_, hcal'.symm⟩
    show (_ - inputs.pCalRatio * _ - inputs.fCalRatio * _) / inputs.cCalRatio = _
    rw [hP, hF, hcarbs, ← hcal']
    simp only [inputs.pCalRatio, inputs.fCalRatio, inputs.cCalRatio]
    ring

/-- Witness for `find_macros_agrees_with_FindMacros`: a male profile with activity level 1
on the bulk regime, `user_macros` holding the result of an earlier call. -/
theorem find_macros_agrees_with_FindMacros_witness :
    ∃ m, inputs.FindMacros ⟨80, 180, 0.15, 1, 30, "male", "bulk"⟩ = some m ∧
      m.Protein = (find_macros ⟨80, 180, 0.15, 1, 30, "male", "bulk"⟩ ⟨1, 2, 3, 4⟩).1.protein ∧
      m.Fat = (find_macros ⟨80, 180, 0.15, 1, 30, "male", "bulk"⟩ ⟨1, 2, 3, 4⟩).1.fat ∧
      m.Carbs = (find_macros ⟨80, 180, 0.15, 1, 30, "male", "bulk"⟩ ⟨1, 2, 3, 4⟩).1.carbs ∧
      m.Calories =
        (find_macros ⟨80, 180, 0.15, 1, 30, "male", "bulk"⟩ ⟨1, 2, 3, 4⟩).1.calories := by
  obtain ⟨m, hm, hp, hf, -, -, -, -, h1⟩ :=
    find_macros_agrees_with_FindMacros ⟨80, 180, 0.15, 1, 30, "male", "bulk"⟩ ⟨1, 2, 3, 4⟩
      (Or.inl rfl)
  exact ⟨m, hm, hp, hf, (h1 rfl).1, (h1 rfl).2⟩

end find_macros

/-! ## Recipe generation: extrapolation of the oat quantity -/

namespace outputs

open float64

/-- Claim C17, amended. In exact arithmetic (no rounding and no overflow) the oat quantity of
`GenerateRecipe` is not clamped: it is `200 + 150 * (calories - 1600) / 1800` for every
calorie value, so for two `Macros` the quantities differ by `150 * (c1 - c2) / 1800`; the
quantity is strictly increasing in the calories, above 350 for calories above 3400, below
200 for calories below 1600 and negative for calories below -800. -/
theorem GenerateRecipe_Oats_linear (m1 m2 : Macros) :
    ∃ q1 q2, (GenerateRecipe m1).Oats = fin q1 ∧ (GenerateRecipe m2).Oats = fin q2 ∧
      q1 - q2 = 150 * (m1.Calories - m2.Calories) / 1800 ∧
      (m1.Calories < m2.Calories → q1 < q2) ∧
      (3400 < m1.Calories → 350 < q1) ∧
      (m1.Calories < 1600 → q1 < 200) ∧
      (m1.Calories < -800 → q1 < 0) := by
  refine ⟨_, _, Oats_eq locals m1, Oats_eq locals m2, ?_, ?_, ?_, ?_, ?_⟩
  · ring
  · intro h
    norm_num
    linarith
  · intro h
    norm_num
    linarith
  · intro h
    norm_num
    linarith
  · intro h
    norm_num
    linarith

/-- Witness for `GenerateRecipe_Oats_linear`: calories 4300 against 3400, and calories 700
and -2600. -/
theorem GenerateRecipe_Oats_linear_witness :
    (GenerateRecipe ⟨0, 0, 0, 3400⟩).Oats = fin 350 ∧
    (GenerateRecipe ⟨0, 0, 0, 4300⟩).Oats = fin 425 ∧
    (GenerateRecipe ⟨0, 0, 0, 700⟩).Oats = fin 125 ∧
    (GenerateRecipe ⟨0, 0, 0, -2600⟩).Oats = fin (-150) ∧
    (∃ q1 q2, (GenerateRecipe ⟨0, 0, 0, 3400⟩).Oats = fin q1 ∧
      (GenerateRecipe ⟨0, 0, 0, 4300⟩).Oats = fin q2 ∧ q1 < q2) ∧
    (∃ q1, (GenerateRecipe ⟨0, 0, 0, 4300⟩).Oats = fin q1 ∧ 350 < q1) ∧
    (∃ q1, (GenerateRecipe ⟨0, 0, 0, 700⟩).Oats = fin q1 ∧ q1 < 200) ∧
    (∃ q1, (GenerateRecipe ⟨0, 0, 0, -2600⟩).Oats = fin q1 ∧ q1 < 0) := by
  refine ⟨?_, ?_, ?_, ?_, ?_, ?_, ?_, ?_⟩
  · rw [GenerateRecipe, Oats_eq]; norm_num
  · rw [GenerateRecipe, Oats_eq]; norm_num
  · rw [GenerateRecipe, Oats_eq]; norm_num
  · rw [GenerateRecipe, Oats_eq]; norm_num
  · obtain ⟨q1, q2, h1, h2, -, h, -, -, -⟩ :=
      GenerateRecipe_Oats_linear ⟨0, 0, 0, 3400⟩ ⟨0, 0, 0, 4300⟩
    exact ⟨q1, q2, h1, h2, h (by norm_num)⟩
  · obtain ⟨q1, q2, h1, -, -, -, h, -, -⟩ :=
      GenerateRecipe_Oats_linear ⟨0, 0, 0, 4300⟩ ⟨0, 0, 0, 3400⟩
    exact ⟨q1, h1, h (by norm_num)⟩
  · obtain ⟨q1, q2, h1, -, -, -, -, h, -⟩ :=
      GenerateRecipe_Oats_linear ⟨0, 0, 0, 700⟩ ⟨0, 0, 0, 3400⟩
    exact ⟨q1, h1, h (by norm_num)⟩
  · obtain ⟨q1, q2, h1, -, -, -, -, -, h⟩ :=
      GenerateRecipe_Oats_linear ⟨0, 0, 0, -2600⟩ ⟨0, 0, 0, 3400⟩
    exact ⟨q1, h1, h (by norm_num)⟩

end outputs

/-! ## Recipe generation on `float64` values -/

namespace outputs64

open binary64

/-- Zero rounds to zero. -/
theorem round64_zero : round64 0 = fin 0 := by decide!

/-- A finite value times zero is zero. -/
theorem fin_mul_zero (q : ℚ) : fin q * fin 0 = fin 0 := by
  show round64 (q * 0) = fin 0
  rw [mul_zero]
  exact round64_zero

/-- An infinity or NaN times zero is NaN. -/
theorem special_mul_zero (x : binary64) (h : isFinite x = false) :
    x * fin 0 = nan := by
  cases x with
  | fin q => simp [isFinite] at h
  | posInf => rfl
  | negInf => rfl
  | nan => rfl

/-- A division by zero never gives a finite value. -/
theorem div_zero_not_finite (x : binary64) : isFinite (x / fin 0) = false := by
  cases x with
  | fin q =>
    show isFinite (if (0 : ℚ) = 0 then (if q = 0 then nan else infOfSign q)
      else round64 (q / 0)) = false
    rw [if_pos rfl]
    by_cases h : q = 0
    · rw [if_pos h]; rfl
    · rw [if_neg h]
      unfold infOfSign
      split <;> rfl
  | posInf => rfl
  | negInf => rfl
  | nan => rfl

/-- Subtracting NaN gives NaN. -/
theorem sub_nan64 (x : binary64) : x - nan = nan := by cases x <;> rfl

/-- Subtracting from NaN gives NaN. -/
theorem nan_sub64 (x : binary64) : nan - x = nan := by cases x <;> rfl

/-- The whey statement. -/
theorem Whey_stmt (m : Macros) :
    (GenerateRecipe m).Whey =
      (m.Protein - (GenerateRecipe m).Oats * locals.Oats.Protein) / locals.Whey.Protein :=
  rfl

/-- The oil statement. -/
theorem Oil_stmt (m : Macros) :
    (GenerateRecipe m).Oil =
      m.Fat - (GenerateRecipe m).Oats * locals.Oats.Fat
        - (GenerateRecipe m).Whey * locals.Whey.Fat := rfl

/-- The potassium statement. -/
theorem Potassium_stmt (m : Macros) :
    (GenerateRecipe m).Potassium =
      potassiumReq - (GenerateRecipe m).Oats * locals.Oats.Potassium
        - (GenerateRecipe m).Multivitamin * locals.Multivitamin.Potassium := rfl

/-- The whey quantity is a division by the zero-valued `Whey.Protein`: never finite. -/
theorem Whey_not_finite (m : Macros) : isFinite (GenerateRecipe m).Whey = false := by
  rw [Whey_stmt]
  exact div_zero_not_finite _

/-- The oil quantity subtracts the whey quantity times zero: NaN for every input. -/
theorem Oil_nan (m : Macros) : (GenerateRecipe m).Oil = nan := by
  rw [Oil_stmt]
  show _ - (GenerateRecipe m).Whey * fin 0 = nan
  rw [special_mul_zero _ (Whey_not_finite m), sub_nan64]

/-- With a finite oat quantity the potassium quantity is 2500. -/
theorem Potassium_of_finite (m : Macros) (h : isFinite (GenerateRecipe m).Oats = true) :
    (GenerateRecipe m).Potassium = fin 2500 := by
  rw [Potassium_stmt]
  show potassiumReq - (GenerateRecipe m).Oats * fin 0 - multivitamin * fin 0 = fin 2500
  cases ho : (GenerateRecipe m).Oats with
  | fin q =>
    have hm : multivitamin = fin (8106479329266893 / 4503599627370496) := by decide!
    have hp : potassiumReq = fin 2500 := by decide!
    have h1 : fin 2500 - fin 0 = fin 2500 := by decide!
    rw [fin_mul_zero, hm, fin_mul_zero, hp, h1, h1]
  | posInf => rw [ho] at h; simp [isFinite] at h
  | negInf => rw [ho] at h; simp [isFinite] at h
  | nan => rw [ho] at h; simp [isFinite] at h

/-- With an oat quantity that is not finite the potassium quantity is NaN. -/
theorem Potassium_of_not_finite (m : Macros)
    (h : isFinite (GenerateRecipe m).Oats = false) :
    (GenerateRecipe m).Potassium = nan := by
  rw [Potassium_stmt]
  show potassiumReq - (GenerateRecipe m).Oats * fin 0 - _ = nan
  rw [special_mul_zero _ h, sub_nan64, nan_sub64]

/-- Claim C9: the code at a failing input.  For the targets carbs 300, protein 100, fat 50,
calories 2500, `GenerateRecipe` divides by the zero-valued `Whey.Protein`: `Oats` is 275,
`Whey` is `+Inf`, `Oil` and `Maltodextrin` are NaN.  The protein, fat and carbohydrate
rebuilt from the recipe with the contents the generator uses are NaN, equal to none of the
targets 100, 50 and 300. -/
theorem GenerateRecipe_roundtrip_fails :
    (GenerateRecipe ⟨300, 100, 50, 2500⟩).Oats = 275 ∧
    (GenerateRecipe ⟨300, 100, 50, 2500⟩).Whey = posInf ∧
    (GenerateRecipe ⟨300, 100, 50, 2500⟩).Oil = nan ∧
    (GenerateRecipe ⟨300, 100, 50, 2500⟩).Maltodextrin = nan ∧
    (GenerateRecipe ⟨300, 100, 50, 2500⟩).Oats * locals.Oats.Protein
        + (GenerateRecipe ⟨300, 100, 50, 2500⟩).Whey * locals.Whey.Protein = nan ∧
    binary64.eq
      ((GenerateRecipe ⟨300, 100, 50, 2500⟩).Oats * locals.Oats.Protein
        + (GenerateRecipe ⟨300, 100, 50, 2500⟩).Whey * locals.Whey.Protein) 100 = false ∧
    binary64.eq
      ((GenerateRecipe ⟨300, 100, 50, 2500⟩).Oats * locals.Oats.Fat
        + (GenerateRecipe ⟨300, 100, 50, 2500⟩).Whey * locals.Whey.Fat
        + (GenerateRecipe ⟨300, 100, 50, 2500⟩).Oil * locals.Oil.Fat) 50 = false ∧
    binary64.eq
      ((GenerateRecipe ⟨300, 100, 50, 2500⟩).Oats * locals.Oats.Carbs
        + (GenerateRecipe ⟨300, 100, 50, 2500⟩).Whey * locals.Whey.Carbs
        + (GenerateRecipe ⟨300, 100, 50, 2500⟩).Maltodextrin * locals.Maltodextrin.Carbs)
      300 = false := by
  refine ⟨?_, ?_, ?_, ?_, ?_, ?_, ?_, ?_⟩ <;> decide!

/-- Claim C10: the code at a failing input.  For the targets carbs 300, protein 100, fat 50,
calories 2500, `Whey` is `100 / 0 = +Inf`, `Whey * Whey.Carbs` is `+Inf * 0`, which is NaN,
and `Psyllium` is NaN: the returned `Maltodextrin` is NaN, and the comparison `==` of it
with `m.Carbs - Oats_qty * Oats.Carbs - Whey_qty * Whey.Carbs
  - Psyllium_qty * (1 + Psyllium.Carbs)` is false. -/
theorem GenerateRecipe_Maltodextrin_fails :
    (GenerateRecipe ⟨300, 100, 50, 2500⟩).Whey = posInf ∧
    (GenerateRecipe ⟨300, 100, 50, 2500⟩).Whey * locals.Whey.Carbs = nan ∧
    (GenerateRecipe ⟨300, 100, 50, 2500⟩).Psyllium = nan ∧
    (GenerateRecipe ⟨300, 100, 50, 2500⟩).Maltodextrin = nan ∧
    binary64.eq (GenerateRecipe ⟨300, 100, 50, 2500⟩).Maltodextrin
      (300 - (GenerateRecipe ⟨300, 100, 50, 2500⟩).Oats * locals.Oats.Carbs
        - (GenerateRecipe ⟨300, 100, 50, 2500⟩).Whey * locals.Whey.Carbs
        - (GenerateRecipe ⟨300, 100, 50, 2500⟩).Psyllium * (1 + locals.Psyllium.Carbs))
      = false := by
  refine ⟨?_, ?_, ?_, ?_, ?_⟩ <;> decide!

/-- Claim C12, as stated, fails. For calories `1e308` (with carbs 300, protein 100, fat 50) the
oat quantity overflows to `+Inf`, `Oats * Oats.Potassium` is `+Inf * 0`, which is NaN, and
the returned `Potassium` is NaN: the comparison `==` of it with
`2500 - Oats_qty * Oats.Potassium - 1.8 * Multivitamin.Potassium` is false. -/
theorem GenerateRecipe_Potassium_counterexample :
    (GenerateRecipe ⟨300, 100, 50, 1e308⟩).Oats = posInf ∧
    (GenerateRecipe ⟨300, 100, 50, 1e308⟩).Potassium = nan ∧
    binary64.eq (GenerateRecipe ⟨300, 100, 50, 1e308⟩).Potassium
      (2500 - (GenerateRecipe ⟨300, 100, 50, 1e308⟩).Oats * locals.Oats.Potassium
        - 1.8 * locals.Multivitamin.Potassium) = false := by
  refine ⟨?_, ?_, ?_⟩ <;> decide!

/-- Claim C12, amended. For every `Macros` `m` for which the oat quantity is finite,
`GenerateRecipe` returns
`Potassium = 2500 - Oats_qty * Oats.Potassium - Multivitamin_qty * Multivitamin.Potassium`
with `Multivitamin_qty = 1.8`, and the value is 2500, both contents being zero-valued
locals; when the oat quantity is not finite, the returned `Potassium` is NaN. -/
theorem GenerateRecipe_Potassium (m : Macros) :
    (GenerateRecipe m).Multivitamin = 1.8 ∧
    (isFinite (GenerateRecipe m).Oats = true →
      (GenerateRecipe m).Potassium = 2500 ∧
      binary64.eq (GenerateRecipe m).Potassium
        (2500 - (GenerateRecipe m).Oats * locals.Oats.Potassium
          - (GenerateRecipe m).Multivitamin * locals.Multivitamin.Potassium) = true) ∧
    (isFinite (GenerateRecipe m).Oats = false → (GenerateRecipe m).Potassium = nan) := by
  have h2500 : (2500 : binary64) = fin 2500 := by decide!
  refine ⟨rfl, fun h => ?_, Potassium_of_not_finite m⟩
  have hp := Potassium_of_finite m h
  have hexpr : (2500 : binary64) - (GenerateRecipe m).Oats * locals.Oats.Potassium
      - (GenerateRecipe m).Multivitamin * locals.Multivitamin.Potassium
      = (GenerateRecipe m).Potassium := rfl
  rw [hexpr, hp, h2500]
  exact ⟨rfl, by decide!⟩

/-- Witness for `GenerateRecipe_Potassium`: calories 2500 give the finite oat quantity 275
and potassium 2500; calories `1e308` give the oat quantity `+Inf` and potassium NaN. -/
theorem GenerateRecipe_Potassium_witness :
    (GenerateRecipe ⟨300, 100, 50, 2500⟩).Oats = 275 ∧
    (GenerateRecipe ⟨300, 100, 50, 2500⟩).Potassium = 2500 ∧
    (GenerateRecipe ⟨300, 100, 50, 1e308⟩).Oats = posInf ∧
    (GenerateRecipe ⟨300, 100, 50, 1e308⟩).Potassium = nan :=
  ⟨by decide!,
    ((GenerateRecipe_Potassium ⟨300, 100, 50, 2500⟩).2.1 (by decide!)).1,
    by decide!,
    (GenerateRecipe_Potassium ⟨300, 100, 50, 1e308⟩).2.2 (by decide!)⟩

/-- Claim C17, as stated, fails. In `float64` the calories `3400.0000000000005` are above 3400
and give the oat quantity 350, the same as 3400: not above 350 and not strictly
increasing.  The calories `-800.0000000000001` are below -800 and give the oat quantity 0,
not a negative one.  For calories `1e308` the quantity overflows to `+Inf`. -/
theorem GenerateRecipe_Oats_counterexample :
    binary64.lt 3400 3400.0000000000005 = true ∧
    (GenerateRecipe ⟨0, 0, 0, 3400⟩).Oats = 350 ∧
    (GenerateRecipe ⟨0, 0, 0, 3400.0000000000005⟩).Oats = 350 ∧
    binary64.lt 350 (GenerateRecipe ⟨0, 0, 0, 3400.0000000000005⟩).Oats = false ∧
    binary64.lt (-800.0000000000001) (-800) = true ∧
    (GenerateRecipe ⟨0, 0, 0, -800.0000000000001⟩).Oats = 0 ∧
    binary64.lt (GenerateRecipe ⟨0, 0, 0, -800.0000000000001⟩).Oats 0 = false ∧
    (GenerateRecipe ⟨0, 0, 0, 1e308⟩).Oats = posInf := by
  refine ⟨?_, ?_, ?_, ?_, ?_, ?_, ?_, ?_⟩ <;> decide!

/-- Claim C18: the code at a failing input.  For the targets carbs 300, protein 100, fat 50,
calories 2500, `Whey` is `100 / 0 = +Inf` and `Whey * Whey.Fat` is `+Inf * 0`, which is
NaN: the returned `Oil` is NaN, not the remaining fat 50, and the comparison `==` of it
with `m.Fat - Oats_qty * Oats.Fat - Whey_qty * Whey.Fat` is false. -/
theorem GenerateRecipe_Oil_fails :
    (GenerateRecipe ⟨300, 100, 50, 2500⟩).Oats = 275 ∧
    (GenerateRecipe ⟨300, 100, 50, 2500⟩).Whey = posInf ∧
    (GenerateRecipe ⟨300, 100, 50, 2500⟩).Whey * locals.Whey.Fat = nan ∧
    (GenerateRecipe ⟨300, 100, 50, 2500⟩).Oil = nan ∧
    binary64.eq (GenerateRecipe ⟨300, 100, 50, 2500⟩).Oil 50 = false ∧
    binary64.eq (GenerateRecipe ⟨300, 100, 50, 2500⟩).Oil
      (50 - (GenerateRecipe ⟨300, 100, 50, 2500⟩).Oats * locals.Oats.Fat
        - (GenerateRecipe ⟨300, 100, 50, 2500⟩).Whey * locals.Whey.Fat) = false := by
  refine ⟨?_, ?_, ?_, ?_, ?_, ?_⟩ <;> decide!

/-- Claim C20, as stated, fails. For the targets carbs 300, protein 100, fat 50, calories 2500
the returned `Oil` is NaN, not `m.Fat = 50`; and for calories `1e308` the oat quantity
overflows to `+Inf` and the returned `Potassium` is NaN, not 2500. -/
theorem GenerateRecipe_zero_contents_counterexample :
    (GenerateRecipe ⟨300, 100, 50, 2500⟩).Oil = nan ∧
    binary64.eq (GenerateRecipe ⟨300, 100, 50, 2500⟩).Oil 50 = false ∧
    (GenerateRecipe ⟨300, 100, 50, 1e308⟩).Oats = posInf ∧
    (GenerateRecipe ⟨300, 100, 50, 1e308⟩).Potassium = nan ∧
    binary64.eq (GenerateRecipe ⟨300, 100, 50, 1e308⟩).Potassium 2500 = false := by
  refine ⟨?_, ?_, ?_, ?_, ?_⟩ <;> decide!

/-- Claim C20, amended. `GenerateRecipe` reads its ingredient contents from zero-valued local
`Ingredient` records: every per-unit content is 0, in particular the divisors
`Whey.Protein` and `Psyllium.Fibre`.  For every `Macros` `m` the returned `Whey`, a
division by zero, is an infinity or NaN, and the returned `Oil` is NaN, never `m.Fat`;
the returned `Potassium` is 2500 whenever the oat quantity is finite, and NaN otherwise. -/
theorem GenerateRecipe_zero_contents (m : Macros) :
    locals.Oats = ⟨fin 0, fin 0, fin 0, fin 0, fin 0⟩ ∧
    locals.Whey = ⟨fin 0, fin 0, fin 0, fin 0, fin 0⟩ ∧
    locals.Maltodextrin = ⟨fin 0, fin 0, fin 0, fin 0, fin 0⟩ ∧
    locals.Oil = ⟨fin 0, fin 0, fin 0, fin 0, fin 0⟩ ∧
    locals.Psyllium = ⟨fin 0, fin 0, fin 0, fin 0, fin 0⟩ ∧
    locals.Salt = ⟨fin 0, fin 0, fin 0, fin 0, fin 0⟩ ∧
    locals.Multivitamin = ⟨fin 0, fin 0, fin 0, fin 0, fin 0⟩ ∧
    locals.Choline = ⟨fin 0, fin 0, fin 0, fin 0, fin 0⟩ ∧
    locals.Potassium = ⟨fin 0, fin 0, fin 0, fin 0, fin 0⟩ ∧
    locals.Whey.Protein = fin 0 ∧ locals.Psyllium.Fibre = fin 0 ∧
    isFinite (GenerateRecipe m).Whey = false ∧
    (GenerateRecipe m).Oil = nan ∧
    binary64.eq (GenerateRecipe m).Oil m.Fat = false ∧
    (isFinite (GenerateRecipe m).Oats = true → (GenerateRecipe m).Potassium = fin 2500) ∧
    (isFinite (GenerateRecipe m).Oats = false → (GenerateRecipe m).Potassium = nan) := by
  refine ⟨rfl, rfl, rfl, rfl, rfl, rfl, rfl, rfl, rfl, rfl, rfl, Whey_not_finite m,
    Oil_nan m, ?_, Potassium_of_finite m, Potassium_of_not_finite m⟩
  rw [Oil_nan]
  rfl

/-- Witness for `GenerateRecipe_zero_contents`: calories 2500 give the finite oat quantity 275
and potassium 2500; calories `1e308` give the oat quantity `+Inf` and potassium NaN. -/
theorem GenerateRecipe_zero_contents_witness :
    (GenerateRecipe ⟨300, 100, 50, 2500⟩).Oats = fin 275 ∧
    (GenerateRecipe ⟨300, 100, 50, 2500⟩).Potassium = fin 2500 ∧
    (GenerateRecipe ⟨300, 100, 50, 1e308⟩).Oats = posInf ∧
    (GenerateRecipe ⟨300, 100, 50, 1e308⟩).Potassium = nan :=
  ⟨by decide!,
    (GenerateRecipe_zero_contents ⟨300, 100, 50, 2500⟩).2.2.2.2.2.2.2.2.2.2.2.2.2.2.1
      (by decide!),
    by decide!,
    (GenerateRecipe_zero_contents ⟨300, 100, 50, 1e308⟩).2.2.2.2.2.2.2.2.2.2.2.2.2.2.2
      (by decide!)⟩

end outputs64

/-! ## Macro-nutrient requirements on `float64` values -/

namespace inputs64

open binary64

/-- What `FindMacros` returns once `findCalories` has produced `c`. -/
theorem FindMacros_of_some (u : Profile) (c : binary64) (h : findCalories u = some c) :
    FindMacros u = some
      { Carbs := (c - pCalRatio * (pMassRatio * leanBodyMass u.Weight u.BodyFat * kilo2Pound)
                    - fCalRatio * (fMassRatio * u.Weight * kilo2Pound)) / cCalRatio
        Protein := pMassRatio * leanBodyMass u.Weight u.BodyFat * kilo2Pound
        Fat := fMassRatio * u.Weight * kilo2Pound
        Calories := c } := by
  simp [FindMacros, h]

/-- Claim C15, amended. Whenever `findCalories` returns calories `c` for which the
carbohydrate remainder `(c - 4 * protein - 9 * fat) / 4` computed by `FindMacros` is
negative, `FindMacros` returns a `Macros` value whose `Carbs` is that negative number; and
`outputs64.GenerateRecipe` returns a recipe with the negative quantity `Oats = -150` for
calories -2600.  Neither result carries a report. -/
theorem FindMacros_carbs_unchecked (u : Profile) (c : binary64)
    (hc : findCalories u = some c)
    (hneg : binary64.lt
      ((c - pCalRatio * (pMassRatio * leanBodyMass u.Weight u.BodyFat * kilo2Pound)
          - fCalRatio * (fMassRatio * u.Weight * kilo2Pound)) / cCalRatio) 0 = true) :
    (∃ m, FindMacros u = some m ∧ m.Calories = c ∧
      m.Carbs = (c - pCalRatio * m.Protein - fCalRatio * m.Fat) / cCalRatio ∧
      binary64.lt m.Carbs 0 = true) ∧
    (outputs64.GenerateRecipe ⟨0, 0, 0, -2600⟩).Oats = -150 ∧
    binary64.lt (outputs64.GenerateRecipe ⟨0, 0, 0, -2600⟩).Oats 0 = true :=
  ⟨⟨_, FindMacros_of_some u c hc, rfl, rfl, hneg⟩, by decide!, by decide!⟩

/-- Witness for `FindMacros_carbs_unchecked`: the profile weight 150, height 150, body fat 0,
activity level 1, age 80, female, cut, with calories 2244.12 and carbs
-269.83714991249997. -/
theorem FindMacros_carbs_unchecked_witness :
    (∃ m, FindMacros ⟨150, 150, 0, 1, 80, "female", "cut"⟩ = some m ∧ m.Calories = 2244.12 ∧
      m.Carbs = (2244.12 - pCalRatio * m.Protein - fCalRatio * m.Fat) / cCalRatio ∧
      binary64.lt m.Carbs 0 = true) ∧
    (outputs64.GenerateRecipe ⟨0, 0, 0, -2600⟩).Oats = -150 ∧
    binary64.lt (outputs64.GenerateRecipe ⟨0, 0, 0, -2600⟩).Oats 0 = true :=
  FindMacros_carbs_unchecked ⟨150, 150, 0, 1, 80, "female", "cut"⟩ 2244.12
    (by decide!) (by decide!)

end inputs64
